import Mathlib

/-!
Verification development for `xybingbing/pkg` (package `db`)

A shallow embedding of the database-access layer:

* `src/db/gorm/interceptor.go`: the three instrumentation interceptors and the
  `Processor` interface;
* `src/db/gorm.go`: `Config`, the registry `instances`, `NewWrapper`, `newDB`
  and its local closure `replace`;
* `src/db/stats.go`: the body of one iteration of the `monitor` loop;
* `src/conf/config.go`: `setDefault`, `setField`, `isInitialValue` and
  `initializeField`, over a description of the fields of a struct type.

Go values that live outside the repository (driver connections, the tracer,
the meter, the standard logger, the clock) are represented by the calls made
on them: every such call appends one `Event` (per database call) or one
`Effect` (per connection build) to a log carried in the state.
-/

namespace Db

/-! ## Go errors -/

/-- A Go `error` value. `recordNotFound` is the sentinel
`gorm.ErrRecordNotFound`; `wrapped` is an error whose `Unwrap` gives `inner`. -/
inductive GoError where
  | recordNotFound
  | plain (msg : String)
  | wrapped (msg : String) (inner : GoError)
  deriving DecidableEq, Repr

/-- The method `Error()` of an error value. -/
def GoError.Error : GoError → String
  | .recordNotFound => "record not found"
  | .plain msg => msg
  | .wrapped msg _ => msg

/-- The chain walk of `errors.Is(err, gorm.ErrRecordNotFound)` on a non-nil error. -/
def GoError.isRecordNotFound : GoError → Bool
  | .recordNotFound => true
  | .plain _ => false
  | .wrapped _ inner => inner.isRecordNotFound

/-- `errors.Is(err, gorm.ErrRecordNotFound)`; a nil `err` is `none` and is not
the sentinel. -/
def errorsIsRecordNotFound : Option GoError → Bool
  | none => false
  | some e => e.isRecordNotFound

/-- The message of the runtime panic raised by a nil dereference or a call of a
nil function value. -/
def nilDereference : String :=
  "runtime error: invalid memory address or nil pointer dereference"

/-! ## Operation context (`*gorm.DB` as seen by a callback) -/

/-- A non-nil `context.Context` as far as the trace interceptor uses it: the
trace identifier of the span started from it. -/
structure TraceContext where
  traceID : String
  deriving DecidableEq, Repr

/-- The fields of `gorm.Statement` that the interceptors read or write.
`comments` holds the `hints.CommentBefore(clause, comment)` modifiers applied to
the statement, oldest first. -/
structure Statement where
  Context : Option TraceContext
  BuildClauses : List String
  SQL : String
  Vars : List String
  Table : String
  comments : List (String × String)
  deriving DecidableEq, Repr

/-- The fields of `gorm.DB` that the interceptors read. -/
structure DB where
  Statement : Statement
  Error : Option GoError
  RowsAffected : Int
  DialectorName : String
  deriving DecidableEq, Repr

/-- The arguments of `db.Explain(sql, vars...)`; the rendering itself belongs to
the dialector and is kept symbolic. -/
structure Explained where
  sql : String
  vars : List String
  deriving DecidableEq, Repr

/-- Span status codes of `go.opentelemetry.io/otel/codes` used here. -/
inductive StatusCode where
  | Error
  | Ok
  deriving DecidableEq, Repr

/-- One call made by an interceptor on the logger, on a span or on a histogram. -/
inductive Event where
  | logPrintln (cost : Nat) (sql : Explained) (err : Option String)
  | spanStart (tracer : String) (operation : String)
  | spanSetAttributes (system : String) (statement : Explained) (operation : String)
      (table : String) (rowsAffected : Int)
  | spanRecordError (err : Option GoError)
  | spanSetStatus (code : StatusCode) (description : String)
  | spanEnd
  | histogramRecord (meter : String) (cost : Nat) (dbName : String) (table : String)
  deriving DecidableEq, Repr

/-- What a handler acts on: the `*gorm.DB` it receives, the monotonic clock read
by `time.Now`, whether `meter.Float64Histogram` yields a nil instrument, and the
calls made so far on the logger, the spans and the histogram. -/
structure State where
  db : DB
  now : Nat
  histogramNil : Bool
  out : List Event
  deriving DecidableEq, Repr

/-- Append one event to the log. -/
def State.emit (s : State) (e : Event) : State :=
  { s with out := s.out ++ [e] }

/-- How a handler call ends: it returns, or it panics (the state is the one
reached when the panic leaves the handler, deferred calls included). -/
inductive Outcome where
  | returned (s : State)
  | panicked (msg : String) (s : State)
  deriving DecidableEq, Repr

/-- A non-nil value of type `Handler` (`func(*gorm.DB)`). -/
abbrev Handler := State → Outcome

/-- A value of a Go function type, which may be nil (`none`). -/
abbrev GoFunc := Option Handler

/-- Calling a function value: calling nil panics. -/
def invoke (f : GoFunc) (s : State) : Outcome :=
  match f with
  | none => .panicked nilDereference s
  | some h => h s

/-- `logSQL(db)`. -/
def logSQL (db : DB) : Explained :=
  { sql := db.Statement.SQL, vars := db.Statement.Vars }

/-! ## Configuration -/

/-- A non-nil `*zap.Logger`. -/
structure ZapLogger where
  id : Nat
  deriving DecidableEq, Repr

/-- The struct `log.Logger` of `src/log/log.go`: an embedded `*zap.Logger`. -/
structure LogLogger where
  Logger : Option ZapLogger
  deriving DecidableEq, Repr

/-- The three top-level functions of type `Interceptor`. -/
inductive Interceptor where
  | debug
  | trace
  | metric
  deriving DecidableEq, Repr

/-- The struct `Config` of `src/db/gorm.go` (`Type_` is the field `Type`). -/
structure Config where
  Logger : Option LogLogger
  Type_ : String
  DSN : String
  MaxIdleConn : Int
  MaxOpenConn : Int
  ConnMaxLifetime : Int
  ConnMaxIdleTime : Int
  SlowLogThreshold : Int
  EnableDebug : Bool
  EnableMetric : Bool
  EnableTrace : Bool
  dbName : String
  interceptors : List Interceptor
  deriving DecidableEq, Repr

/-! ## The interceptors (`src/db/gorm/interceptor.go`) -/

/-- The handler returned by `debugInterceptor(callbackName, config)(next)`. -/
def debugInterceptor (_callbackName : String) (_config : Config) (next : GoFunc) : Handler :=
  fun s =>
    let beg := s.now
    match invoke next s with
    | .panicked msg t => .panicked msg t
    | .returned t =>
      let cost := t.now - beg
      match t.db.Error with
      | some e => .returned (t.emit (.logPrintln cost (logSQL t.db) (some e.Error)))
      | none => .returned (t.emit (.logPrintln cost (logSQL t.db) none))

/-- The handler returned by `metricInterceptor(callbackName, config)(next)`. -/
def metricInterceptor (callbackName : String) (config : Config) (next : GoFunc) : Handler :=
  fun s =>
    let beg := s.now
    match invoke next s with
    | .panicked msg t => .panicked msg t
    | .returned t =>
      let cost := t.now - beg
      if t.histogramNil then .returned t
      else .returned (t.emit (.histogramRecord callbackName cost config.dbName t.db.Statement.Table))

/-- The span name computed at lines 71-74. -/
def traceOperation (st : Statement) : String :=
  match st.BuildClauses with
  | [] => "gorm:"
  | c :: _ => "gorm:" ++ c.toLower

/-- The trace comment of line 77. -/
def traceComment (ctx : TraceContext) : String :=
  "traceId=" ++ ctx.traceID

/-- Lines 78-90: the comment is put in front of SQL text that already exists,
and otherwise attached before each of the four statement clauses. -/
def annotate (comment : String) (st : Statement) : Statement :=
  if 0 < st.SQL.length then
    { st with SQL := "/* " ++ comment ++ " */ " ++ st.SQL }
  else
    { st with comments := st.comments ++
        [("SELECT", comment), ("INSERT", comment), ("UPDATE", comment), ("DELETE", comment)] }

/-- Lines 75-90 of the traced branch: the state handed to `next`. -/
def tracePrepare (callbackName : String) (ctx : TraceContext) (s : State) : State :=
  let s1 := s.emit (.spanStart callbackName (traceOperation s.db.Statement))
  { s1 with db := { s1.db with Statement := annotate (traceComment ctx) s1.db.Statement } }

/-- Lines 92-106 of the traced branch, run after `next` has returned; `operation`
is the span name computed before the call. The deferred `span.End()` runs on
every way out. -/
def traceFinish (operation : String) (t : State) : Outcome :=
  let t1 := t.emit (.spanSetAttributes t.db.DialectorName (logSQL t.db) operation
    t.db.Statement.Table t.db.RowsAffected)
  let err := t1.db.Error
  if !errorsIsRecordNotFound err then
    let t2 := t1.emit (.spanRecordError t1.db.Error)
    match t2.db.Error with
    | none => .panicked nilDereference (t2.emit .spanEnd)
    | some e => .returned ((t2.emit (.spanSetStatus .Error e.Error)).emit .spanEnd)
  else
    .returned ((t1.emit (.spanSetStatus .Ok "OK")).emit .spanEnd)

/-- The handler returned by `traceInterceptor(callbackName, config)(next)`. -/
def traceInterceptor (callbackName : String) (_config : Config) (next : GoFunc) : Handler :=
  fun s =>
    match s.db.Statement.Context with
    | some ctx =>
      let operation := traceOperation s.db.Statement
      match invoke next (tracePrepare callbackName ctx s) with
      | .panicked msg t => .panicked msg (t.emit .spanEnd)
      | .returned t => traceFinish operation t
    | none => invoke next s

/-- Calling a value of type `Interceptor` and applying the result to `next`:
`interceptor(callbackName, config)(next)`. The result is never nil. -/
def Interceptor.apply (i : Interceptor) (callbackName : String) (config : Config)
    (next : GoFunc) : GoFunc :=
  match i with
  | .debug => some (debugInterceptor callbackName config next)
  | .trace => some (traceInterceptor callbackName config next)
  | .metric => some (metricInterceptor callbackName config next)

/-! ## The connection builder (`newDB`, `src/db/gorm.go`) -/

/-- The interface `Processor`: `Get` may return a nil function, `Replace`
returns nil (`none`) or an error. -/
structure Processor where
  Get : String → GoFunc
  Replace : String → GoFunc → Option GoError

/-- A `*sql.DB` as `newDB` uses it: the result of `Ping()` and the result of
scanning `SELECT DATABASE()`. -/
structure SqlDB where
  ping : Option GoError
  database : Except GoError String

/-- A non-nil `*gorm.DB` handle: its identity, the result of its method `DB()`,
the processors returned by `Callback().Create()` ... `Callback().Raw()`, and the
handlers handed to `Replace` so far, oldest first. -/
structure GormDB where
  id : Nat
  conn : Except GoError SqlDB
  Create : Processor
  Update : Processor
  Delete : Processor
  Query : Processor
  Row : Processor
  Raw : Processor
  replaced : List (String × GoFunc)

/-- One call that `newDB` makes on the logger package, on the driver or on the
connection pool. -/
inductive Effect where
  | newZapLog (zap : Option ZapLogger)
  | gormOpen (dialect : String) (dsn : String)
  | setMaxIdleConns (n : Int)
  | setMaxOpenConns (n : Int)
  | setConnMaxLifetime (d : Int)
  | setConnMaxIdleTime (d : Int)
  | ping
  | queryRow (sql : String)
  | replace (callbackName : String)
  deriving DecidableEq, Repr

/-- The outside of the program for a build: what `gorm.Open` returns for a
dialect (`"sqlite"`, `"mysql"`, `"postgres"`) and a DSN. -/
structure Env where
  gormOpen : String → String → Except GoError GormDB

/-- How a Go function returning `(value, error)` ends. -/
inductive Result (α : Type) where
  | ok (a : α)
  | error (e : GoError)
  | panic (msg : String)

def TypeSQLite : String := "sqllite"

def TypeMySQL : String := "mysql"

def TypePostgreSQL : String := "postgres"

/-- The product `time.Duration(n) * time.Second` in 64-bit two's complement. -/
def seconds (n : Int) : Int :=
  (n * 1000000000 + 2 ^ 63) % 2 ^ 64 - 2 ^ 63

/-- Lines 88-110: the `switch` on `config.Type`. The result is the value of
`gormDB` after the switch (`none` when no case matched) or the open error. -/
def openDriver (env : Env) (config : Config) : Except GoError (Option GormDB) × List Effect :=
  if config.Type_ = TypeSQLite then
    match env.gormOpen "sqlite" config.DSN with
    | .error e => (.error e, [.gormOpen "sqlite" config.DSN])
    | .ok g => (.ok (some g), [.gormOpen "sqlite" config.DSN])
  else if config.Type_ = TypeMySQL then
    match env.gormOpen "mysql" config.DSN with
    | .error e => (.error e, [.gormOpen "mysql" config.DSN])
    | .ok g => (.ok (some g), [.gormOpen "mysql" config.DSN])
  else if config.Type_ = TypePostgreSQL then
    match env.gormOpen "postgres" config.DSN with
    | .error e => (.error e, [.gormOpen "postgres" config.DSN])
    | .ok g => (.ok (some g), [.gormOpen "postgres" config.DSN])
  else
    (.ok none, [])

/-- Lines 122-129: the pool settings applied before the ping. -/
def poolSettings (config : Config) : List Effect :=
  [.setMaxIdleConns config.MaxIdleConn, .setMaxOpenConns config.MaxOpenConn]
    ++ (if config.ConnMaxLifetime ≠ 0 then [.setConnMaxLifetime (seconds config.ConnMaxLifetime)]
        else [])
    ++ (if config.ConnMaxIdleTime ≠ 0 then [.setConnMaxIdleTime (seconds config.ConnMaxIdleTime)]
        else [])

/-- Lines 138-147: the interceptor list is reset, then extended flag by flag. -/
def assembleInterceptors (config : Config) : Config :=
  let config := { config with interceptors := [] }
  let config :=
    if config.EnableDebug then { config with interceptors := config.interceptors ++ [.debug] }
    else config
  let config :=
    if config.EnableTrace then { config with interceptors := config.interceptors ++ [.trace] }
    else config
  if config.EnableMetric then { config with interceptors := config.interceptors ++ [.metric] }
  else config

/-- The loop of lines 150-152: `handler = interceptor(callbackName, config)(handler)`
for each interceptor of the list in order. -/
def wrapAll (callbackName : String) (config : Config) : List Interceptor → GoFunc → GoFunc
  | [], handler => handler
  | interceptor :: rest, handler =>
    wrapAll callbackName config rest (interceptor.apply callbackName config handler)

/-- The handler that `replace` hands to `processor.Replace` (lines 149-152). -/
def installedHandler (config : Config) (processor : Processor) (callbackName : String) : GoFunc :=
  let handler := processor.Get callbackName
  wrapAll callbackName config config.interceptors handler

/-- The closure `replace` of lines 148-154; its variadic parameter is not read,
the loop ranges over `config.interceptors`. -/
def replace (config : Config) (processor : Processor) (callbackName : String) : Option GoError :=
  processor.Replace callbackName (installedHandler config processor callbackName)

/-- The six operation kinds in the order of lines 155-172, each with the
processor it is replaced on. -/
def operationKinds (g : GormDB) : List (Processor × String) :=
  [(g.Create, "gorm:create"), (g.Update, "gorm:update"), (g.Delete, "gorm:delete"),
   (g.Query, "gorm:query"), (g.Row, "gorm:row"), (g.Raw, "gorm:raw")]

/-- Lines 155-172: `replace` on each kind in order, returning at the first error. -/
def replaceEach (config : Config) (g : GormDB) : List (Processor × String) →
    Except GoError GormDB × List Effect
  | [] => (.ok g, [])
  | (processor, callbackName) :: rest =>
    match replace config processor callbackName with
    | some e => (.error e, [.replace callbackName])
    | none =>
      let g1 := { g with replaced :=
        g.replaced ++ [(callbackName, installedHandler config processor callbackName)] }
      match replaceEach config g1 rest with
      | (r, effects) => (r, .replace callbackName :: effects)

/-- The function `newDB`: its result, the configuration it leaves behind (it
writes `dbName` and `interceptors` through the pointer) and the calls it made. -/
def newDB (env : Env) (config : Config) : Result GormDB × Config × List Effect :=
  match config.Logger with
  | none => (.panic nilDereference, config, [])
  | some l =>
    let e0 := [Effect.newZapLog l.Logger]
    match openDriver env config with
    | (.error e, opened) => (.error e, config, e0 ++ opened)
    | (.ok none, opened) => (.error (.plain "gormDB is nil"), config, e0 ++ opened)
    | (.ok (some gormDB), opened) =>
      match gormDB.conn with
      | .error e => (.error e, config, e0 ++ opened)
      | .ok db =>
        let e1 := e0 ++ opened ++ poolSettings config ++ [.ping]
        match db.ping with
        | some e => (.error e, config, e1)
        | none =>
          let e2 := e1 ++ [.queryRow "SELECT DATABASE()"]
          match db.database with
          | .error e => (.error e, config, e2)
          | .ok name =>
            let config := { config with dbName := name }
            let config := assembleInterceptors config
            match replaceEach config gormDB (operationKinds gormDB) with
            | (.error e, replaces) => (.error e, config, e2 ++ replaces)
            | (.ok g, replaces) => (.ok g, config, e2 ++ replaces)

/-! ## The registry and `NewWrapper` -/

/-- A non-nil `*Wrapper`: the address of the allocation and the field `db`. -/
structure Wrapper where
  addr : Nat
  db : GormDB

/-- The contents of the `sync.Map` `instances`: one entry per key, a nil
interface value being `none`. -/
abbrev Registry := List (String × Option Wrapper)

/-- The method `Load`: `none` is `ok == false`. -/
def Registry.Load : Registry → String → Option (Option Wrapper)
  | [], _ => none
  | (k, v) :: rest, name => if k = name then some v else Registry.Load rest name

/-- The method `Store`: the value of an existing key is overwritten, a new key
is added. -/
def Registry.Store : Registry → String → Option Wrapper → Registry
  | [], name, v => [(name, v)]
  | (k, old) :: rest, name, v =>
    if k = name then (k, v) :: rest else (k, old) :: Registry.Store rest name v

/-- The state that `NewWrapper` acts on: the registry, the calls made by all
builds so far, the number of `Wrapper` values allocated so far, and the number
of times line 69 (the call of `newDB`) has been executed. -/
structure World where
  instances : Registry
  effects : List Effect
  allocs : Nat
  builds : Nat

/-- Lines 61-64: the registry key. -/
def wrapperName (obj : List String) : String :=
  match obj with
  | [] => "default"
  | name :: _ => name

/-- The function `NewWrapper(config, obj...)`. -/
def NewWrapper (env : Env) (config : Config) (obj : List String) (w : World) :
    Result Wrapper × Config × World :=
  let name := wrapperName obj
  match w.instances.Load name with
  | some (some value) => (.ok value, config, w)
  | _ =>
    match newDB env config with
    | (.panic msg, config, effects) =>
      (.panic msg, config, { w with effects := w.effects ++ effects, builds := w.builds + 1 })
    | (.error e, config, effects) =>
      (.error e, config, { w with effects := w.effects ++ effects, builds := w.builds + 1 })
    | (.ok gormDB, config, effects) =>
      let wrapper : Wrapper := { addr := w.allocs, db := gormDB }
      (.ok wrapper, config,
        { instances := w.instances.Store name (some wrapper),
          effects := w.effects ++ effects,
          allocs := w.allocs + 1,
          builds := w.builds + 1 })

/-! ## Interleaved calls of `NewWrapper`

Each goroutine running `NewWrapper(config, name)` goes through the three
steps of the function body; `sync.Map` makes each `Load` and each `Store`
atomic, and nothing in the function makes the sequence atomic. -/

/-- Where a goroutine is inside `NewWrapper`. -/
inductive Thread where
  | start
  | missed
  | built (gormDB : GormDB)
  | done (result : Result Wrapper)

/-- One step of a goroutine: line 65 from `start`, line 69 from `missed`,
lines 73-76 from `built`. -/
def Thread.step (env : Env) (config : Config) (name : String) (t : Thread) (w : World) :
    Thread × World :=
  match t with
  | .start =>
    match w.instances.Load name with
    | some (some value) => (.done (.ok value), w)
    | _ => (.missed, w)
  | .missed =>
    match newDB env config with
    | (.panic msg, _, effects) =>
      (.done (.panic msg), { w with effects := w.effects ++ effects, builds := w.builds + 1 })
    | (.error e, _, effects) =>
      (.done (.error e), { w with effects := w.effects ++ effects, builds := w.builds + 1 })
    | (.ok gormDB, _, effects) =>
      (.built gormDB, { w with effects := w.effects ++ effects, builds := w.builds + 1 })
  | .built gormDB =>
    let wrapper : Wrapper := { addr := w.allocs, db := gormDB }
    (.done (.ok wrapper),
      { w with instances := w.instances.Store name (some wrapper), allocs := w.allocs + 1 })
  | .done result => (.done result, w)

/-- The goroutines and the state they share. -/
structure Machine where
  threads : List Thread
  world : World

/-- Goroutine `i` takes its next step (nothing happens when there is no such
goroutine). -/
def Machine.step (env : Env) (config : Config) (name : String) (sys : Machine) (i : Nat) : Machine :=
  match sys.threads[i]? with
  | none => sys
  | some t =>
    match t.step env config name sys.world with
    | (t1, w1) => { threads := sys.threads.set i t1, world := w1 }

/-- An interleaving: the goroutines step in the order given by the schedule. -/
def Machine.run (env : Env) (config : Config) (name : String) : Machine → List Nat → Machine
  | sys, [] => sys
  | sys, i :: rest => Machine.run env config name (sys.step env config name i) rest

/-- The system of `k` goroutines that are all about to call `NewWrapper`. -/
def Machine.init (k : Nat) (w : World) : Machine :=
  { threads := List.replicate k .start, world := w }

/-- The address of the wrapper a goroutine has returned, if it has. -/
def Thread.returnedAddr : Thread → Option Nat
  | .done (.ok wrapper) => some wrapper.addr
  | _ => none

/-! ## The pool stats monitor (`monitor`, `src/db/stats.go`) -/

/-- The instruments created at lines 40-75, in source order. -/
def gaugeNames : List String :=
  ["grom_max_open_connections", "grom_open_connections", "grom_in_use", "grom_idle",
   "grom_max_idle_closed", "grom_max_idle_time_closed", "grom_max_lifetime_closed",
   "grom_wait_count", "grom_wait_duration"]

/-- The two `log.Print` calls of the range callback. -/
inductive MonitorLog where
  | started (name : String)
  | dbError (err : GoError)
  deriving DecidableEq, Repr

/-- The local variable `listMonitor`, the gauge callbacks registered so far as
pairs (instrument name, connection name), and the lines printed so far. -/
structure MonitorState where
  listMonitor : List String
  gauges : List (String × String)
  printed : List MonitorLog
  deriving DecidableEq, Repr

/-- The state of `monitor` before its first sweep. -/
def MonitorState.init : MonitorState :=
  { listMonitor := [], gauges := [], printed := [] }

/-- The loop of lines 25-29: whether `name` is among the names already listed. -/
def listed : List String → String → Bool
  | [], _ => false
  | monitorName :: rest, name => if monitorName = name then true else listed rest name

/-- How one call of the range callback ends: it returns `true` (`goOn`), it
returns `false` (`halt`), or the type assertion of line 33 panics. -/
inductive Visit where
  | goOn (st : MonitorState)
  | halt (st : MonitorState)
  | panic (st : MonitorState)

/-- The range callback of lines 23-77 on one entry of the registry. -/
def monitorVisit (st : MonitorState) (key : String) (val : Option Wrapper) : Visit :=
  let name := key
  if listed st.listMonitor name then .goOn st
  else
    let st := { st with printed := st.printed ++ [MonitorLog.started name] }
    let st := { st with listMonitor := st.listMonitor ++ [name] }
    match val with
    | none => .panic st
    | some wrap =>
      match wrap.db.conn with
      | .error err => .halt { st with printed := st.printed ++ [MonitorLog.dbError err] }
      | .ok _ => .goOn { st with gauges := st.gauges ++ gaugeNames.map (fun g => (g, name)) }

/-- How a sweep ends: `Range` has returned, or the callback has panicked. -/
inductive Sweep where
  | finished (st : MonitorState)
  | panicked (st : MonitorState)

/-- The monitor state a sweep ends in. -/
def Sweep.state : Sweep → MonitorState
  | .finished st => st
  | .panicked st => st

/-- The call `instances.Range(callback)` over the entries in the order in which
`Range` presents them: it ends when the callback returns `false`. -/
def sweep : List (String × Option Wrapper) → MonitorState → Sweep
  | [], st => .finished st
  | (key, val) :: rest, st =>
    match monitorVisit st key val with
    | .goOn st1 => sweep rest st1
    | .halt st1 => .finished st1
    | .panic st1 => .panicked st1

/-- The first iterations of the `for` loop of `monitor`, one per enumeration of
the registry; a panic ends the goroutine. -/
def sweeps : List (List (String × Option Wrapper)) → MonitorState → Sweep
  | [], st => .finished st
  | entries :: rest, st =>
    match sweep entries st with
    | .finished st1 => sweeps rest st1
    | .panicked st1 => .panicked st1

/-! ## Sample values and predicates used in the statements -/

/-- A statement of a raw query without tracing context. -/
def sampleStatement : Statement :=
  { Context := none, BuildClauses := ["SELECT"], SQL := "SELECT 1", Vars := [],
    Table := "example", comments := [] }

/-- A call state at time 0 with nothing logged yet. -/
def sampleState : State :=
  { db := { Statement := sampleStatement, Error := none, RowsAffected := 0,
            DialectorName := "mysql" },
    now := 0, histogramNil := false, out := [] }

/-- The same call carrying a tracing context. -/
def tracedState : State :=
  { sampleState with
    db := { sampleState.db with
      Statement := { sampleStatement with Context := some { traceID := "4bf92f35" } } } }

/-- A base handler that executes in no time and leaves the call as it is. -/
def idleHandler : Handler :=
  fun s => .returned s

/-- A base handler that ends with the given error. -/
def failingHandler (e : GoError) : Handler :=
  fun s => .returned { s with db := { s.db with Error := some e } }

/-- A processor that knows `idleHandler` under every name and accepts every
replacement. -/
def idleProcessor : Processor :=
  { Get := fun _ => some idleHandler, Replace := fun _ _ => none }

/-- A configuration with a logger, kind `mysql` and the given flags. -/
def sampleConfig (debug trace metric : Bool) : Config :=
  { Logger := some { Logger := some { id := 0 } }, Type_ := "mysql", DSN := "dsn",
    MaxIdleConn := 10, MaxOpenConn := 100, ConnMaxLifetime := 300, ConnMaxIdleTime := 300,
    SlowLogThreshold := 1000, EnableDebug := debug, EnableMetric := metric,
    EnableTrace := trace, dbName := "", interceptors := [] }

/-- What one call of a wrapped handler does with `next`: it calls `next` once on
`pre s`, hands a normal return to `post s` and lets a panic of `next` pass after
`unwind s`. -/
def callsOnce (wrapped : GoFunc → GoFunc) (pre : State → State)
    (post : State → State → Outcome) (unwind : State → State → State) : Prop :=
  ∀ (next : GoFunc) (s : State),
    invoke (wrapped next) s =
      match invoke next (pre s) with
      | .returned t => post s t
      | .panicked msg t => .panicked msg (unwind s t)

/-- A handle whose six processors are `idleProcessor` and whose pool answers
the ping and names the database `app`. -/
def sampleHandle (id : Nat) : GormDB :=
  { id := id, conn := .ok { ping := none, database := .ok "app" },
    Create := idleProcessor, Update := idleProcessor, Delete := idleProcessor,
    Query := idleProcessor, Row := idleProcessor, Raw := idleProcessor, replaced := [] }

/-- An environment in which every open succeeds with `sampleHandle 7`. -/
def sampleEnv : Env :=
  { gormOpen := fun _ _ => .ok (sampleHandle 7) }

/-- A world whose registry holds `sampleHandle 1` under the name `x` and
`sampleHandle 2` under `default`. -/
def sampleWorld : World :=
  { instances := [("x", some { addr := 0, db := sampleHandle 1 }),
                  ("default", some { addr := 1, db := sampleHandle 2 })],
    effects := [], allocs := 2, builds := 2 }

/-- A configuration that cannot be built: it has no logger and an unknown kind. -/
def brokenConfig : Config :=
  { sampleConfig true true true with Logger := none, Type_ := "oracle" }

/-- An environment in which every open fails. -/
def failingEnv : Env :=
  { gormOpen := fun _ _ => .error (.plain "connection refused") }

/-- The flag that `newDB` tests before it appends the interceptor. -/
def Interceptor.enabled (config : Config) : Interceptor → Bool
  | .debug => config.EnableDebug
  | .trace => config.EnableTrace
  | .metric => config.EnableMetric

/-- Whether a call returned a value and no error. -/
def Result.isOk {α : Type} : Result α → Bool
  | .ok _ => true
  | _ => false

/-- A processor that has no handler under any name and accepts every
replacement. -/
def emptyProcessor : Processor :=
  { Get := fun _ => none, Replace := fun _ _ => none }

/-- A processor that has no handler under any name and rejects every
replacement. -/
def rejectingProcessor : Processor :=
  { Get := fun _ => none, Replace := fun _ _ => some (.plain "conflicting callback") }

/-- An environment whose handle has no base handler for any of the six kinds. -/
def emptyEnv : Env :=
  { gormOpen := fun _ _ => .ok
      { id := 3, conn := .ok { ping := none, database := .ok "app" },
        Create := emptyProcessor, Update := emptyProcessor, Delete := emptyProcessor,
        Query := emptyProcessor, Row := emptyProcessor, Raw := emptyProcessor, replaced := [] } }

/-- An environment whose handle rejects the replacement of the query callback. -/
def rejectingEnv : Env :=
  { gormOpen := fun _ _ => .ok
      { id := 4, conn := .ok { ping := none, database := .ok "app" },
        Create := emptyProcessor, Update := emptyProcessor, Delete := emptyProcessor,
        Query := rejectingProcessor, Row := emptyProcessor, Raw := emptyProcessor,
        replaced := [] } }

/-- What every reachable monitor state satisfies: no name is listed twice, no
gauge callback is registered twice, and gauges exist only for listed names. -/
def MonitorState.wellFormed (st : MonitorState) : Prop :=
  st.listMonitor.Nodup ∧ st.gauges.Nodup ∧ ∀ g n, (g, n) ∈ st.gauges → n ∈ st.listMonitor

/-- The state in which a visit ends. -/
def Visit.state : Visit → MonitorState
  | .goOn st => st
  | .halt st => st
  | .panic st => st

/-- A handle whose method `DB()` returns an error. -/
def brokenHandle : GormDB :=
  { sampleHandle 9 with conn := .error (.plain "invalid db") }

/-- The registry enumerated with the broken connection `a` before the healthy
connection `b`. -/
def brokenFirst : List (String × Option Wrapper) :=
  [("a", some { addr := 0, db := brokenHandle }), ("b", some { addr := 1, db := sampleHandle 2 })]

/-- Whether the pool handle of a wrapper cannot be obtained (`DB()` returns an
error). -/
def unobtainable (wrap : Wrapper) : Bool :=
  match wrap.db.conn with
  | .error _ => true
  | .ok _ => false

/-- The state of the system once one call has stored the wrapper `wr`: the
registry maps the name to `wr`, `newDB` has been called `b` times, and every
goroutine has either not started or has returned `wr`. -/
def Machine.settled (name : String) (wr : Wrapper) (b : Nat) (sys : Machine) : Prop :=
  sys.world.builds = b ∧ sys.world.instances.Load name = some (some wr) ∧
    ∀ (i : Nat) (t : Thread), sys.threads[i]? = some t →
      t = Thread.start ∨ t = Thread.done (Result.ok wr)

/-- An empty registry before any build. -/
def emptyWorld : World :=
  { instances := [], effects := [], allocs := 0, builds := 0 }

/-- A configuration with a logger whose kind is none of the three constants. -/
def unknownKindConfig : Config :=
  { sampleConfig true true true with
    Type_ := "oracle", dbName := "before", interceptors := [Interceptor.metric] }

/-! ## Default injection (`setDefault`, `src/conf/config.go`) -/

/-- The values of `reflect.Kind` that `setField` and `initializeField` tell
apart; every other kind (slice, map, interface, ...) is `Other`. -/
inductive Kind where
  | Bool
  | Int
  | Int8
  | Int16
  | Int32
  | Int64
  | Uint
  | Uint8
  | Uint16
  | Uint32
  | Uint64
  | Uintptr
  | Float32
  | Float64
  | String
  | Ptr
  | Struct
  | Other
  deriving DecidableEq, Repr

/-- A floating-point number as far as the code looks at it: whether it compares
equal to zero, and which number it is. -/
structure FloatVal where
  isZero : Bool
  id : Nat
  deriving DecidableEq, Repr

/-- The content of a struct field as reflection sees it. A pointer is nil
(`none`) or points to a value of some kind; of a struct, slice or other value
only whether it is deeply equal to the zero value of its type is kept. -/
inductive Value where
  | bool (b : Bool)
  | int (n : Int)
  | float (f : FloatVal)
  | string (s : String)
  | pointer (elem : Option Kind)
  | other (zero : Bool)
  deriving DecidableEq, Repr

/-- The parsers of the standard library that `setField` calls, with the base
argument 0 already applied: `ParseInt s bitSize` is `strconv.ParseInt(s, 0,
bitSize)`; `none` is a non-nil error. -/
structure Parsers where
  ParseBool : String → Option Bool
  ParseInt : String → Nat → Option Int
  ParseUint : String → Nat → Option Int
  ParseFloat : String → Nat → Option FloatVal
  ParseDuration : String → Option Int

/-- The constant `strconv.IntSize` on a 64-bit platform. -/
def IntSize : Nat := 64

/-- Conversion of an integer to a signed type of the given width. -/
def wrapInt (bits : Nat) (n : Int) : Int :=
  (n + 2 ^ (bits - 1)) % 2 ^ bits - 2 ^ (bits - 1)

/-- Conversion of an integer to an unsigned type of the given width. -/
def wrapUint (bits : Nat) (n : Int) : Int :=
  n % 2 ^ bits

/-- The function `isInitialValue`: deep equality with the zero value of the
field's type. -/
def isInitialValue : Value → Bool
  | .bool b => !b
  | .int n => n == 0
  | .float f => f.isZero
  | .string s => s == ""
  | .pointer elem => elem.isNone
  | .other zero => zero

/-- The function `initializeField`. -/
def initializeField (kind : Kind) (field : Value) (tag : String) : Bool :=
  match kind, field with
  | .Struct, _ => true
  | .Ptr, .pointer (some .Struct) => true
  | _, _ => tag != ""

/-- The function `setField` on a field of the given kind, settability and
content: the error it returns (always nil) and the value it hands to
`field.Set`, if it calls `Set`. -/
def setField (P : Parsers) (kind : Kind) (canSet : Bool) (field : Value) (defaultVal : String) :
    Option GoError × Option Value :=
  if !canSet then (none, none)
  else if !initializeField kind field defaultVal then (none, none)
  else if isInitialValue field then
    match kind with
    | .Bool => (none, (P.ParseBool defaultVal).map Value.bool)
    | .Int => (none, (P.ParseInt defaultVal IntSize).map (fun val => .int (wrapInt IntSize val)))
    | .Int8 => (none, (P.ParseInt defaultVal 8).map (fun val => .int (wrapInt 8 val)))
    | .Int16 => (none, (P.ParseInt defaultVal 16).map (fun val => .int (wrapInt 16 val)))
    | .Int32 => (none, (P.ParseInt defaultVal 32).map (fun val => .int (wrapInt 32 val)))
    | .Int64 =>
      match P.ParseDuration defaultVal with
      | some val => (none, some (.int val))
      | none => (none, (P.ParseInt defaultVal 64).map Value.int)
    | .Uint => (none, (P.ParseUint defaultVal IntSize).map (fun val => .int (wrapUint IntSize val)))
    | .Uint8 => (none, (P.ParseUint defaultVal 8).map (fun val => .int (wrapUint 8 val)))
    | .Uint16 => (none, (P.ParseUint defaultVal 16).map (fun val => .int (wrapUint 16 val)))
    | .Uint32 => (none, (P.ParseUint defaultVal 32).map (fun val => .int (wrapUint 32 val)))
    | .Uint64 => (none, (P.ParseUint defaultVal 64).map Value.int)
    | .Uintptr =>
      (none, (P.ParseUint defaultVal IntSize).map (fun val => .int (wrapUint IntSize val)))
    | .Float32 => (none, (P.ParseFloat defaultVal 32).map Value.float)
    | .Float64 => (none, (P.ParseFloat defaultVal 64).map Value.float)
    | .String => (none, some (.string defaultVal))
    | _ => (none, none)
  else (none, none)

/-- One field of a struct type with fields in `σ`, as `t.Field(i)` and
`v.Field(i)` present it: its kind, the value of `Tag.Get("default")`, whether it
is exported (then `CanSet` holds, the struct being reached through a pointer),
how its content is read and what `Set` does. -/
structure StructField (σ : Type) where
  Name : String
  kind : Kind
  tag : String
  exported : Bool
  get : σ → Value
  set : Value → σ → σ

/-- The loop of lines 51-57 over the fields not yet visited. -/
def setFields {σ : Type} (P : Parsers) : List (StructField σ) → σ → Option GoError × σ
  | [], v => (none, v)
  | f :: rest, v =>
    let defaultVal := f.tag
    if defaultVal ≠ "-" ∧ defaultVal ≠ "" then
      match setField P f.kind f.exported (f.get v) defaultVal with
      | (some err, _) => (some err, v)
      | (none, some value) => setFields P rest (f.set value v)
      | (none, none) => setFields P rest v
    else setFields P rest v

/-- What `setDefault` can be handed as `ptr`: a nil interface, a value that is
not a pointer, a nil pointer, a pointer to something that is not a struct, or a
pointer to a struct with content `v`. -/
inductive Argument (σ : Type) where
  | nilInterface
  | notPointer
  | nilPointer
  | toNonStruct
  | toStruct (v : σ)

/-- The function `setDefault` for a struct type with the fields `t`: the error
it returns, or the argument with the struct content it leaves behind. -/
def setDefault {σ : Type} (P : Parsers) (t : List (StructField σ)) :
    Argument σ → Result (Argument σ)
  | .nilInterface => .panic nilDereference
  | .notPointer => .error (.plain "not a pointer")
  | .nilPointer => .panic "reflect: call of reflect.Value.Type on zero Value"
  | .toNonStruct => .ok .toNonStruct
  | .toStruct v =>
    match setFields P t v with
    | (some err, _) => .error err
    | (none, v1) => .ok (.toStruct v1)

/-- The `Set` of a string field. -/
def setString (put : String → Config → Config) (value : Value) (c : Config) : Config :=
  match value with
  | .string s => put s c
  | _ => c

/-- The `Set` of an `int` field. -/
def setInt (put : Int → Config → Config) (value : Value) (c : Config) : Config :=
  match value with
  | .int n => put n c
  | _ => c

/-- The `Set` of a `bool` field. -/
def setBool (put : Bool → Config → Config) (value : Value) (c : Config) : Config :=
  match value with
  | .bool b => put b c
  | _ => c

/-- The thirteen fields of the struct `Config` of `src/db/gorm.go` in
declaration order, with their `default` tags. `Logger` and `interceptors` have
no tag and are never set; their `set` is not used. -/
def Config.fields : List (StructField Config) :=
  [ { Name := "Logger", kind := .Ptr, tag := "", exported := true,
      get := fun c => .pointer (c.Logger.map (fun _ => Kind.Struct)), set := fun _ c => c },
    { Name := "Type", kind := .String, tag := "mysql", exported := true,
      get := fun c => .string c.Type_, set := setString (fun s c => { c with Type_ := s }) },
    { Name := "DSN", kind := .String, tag := "-", exported := true,
      get := fun c => .string c.DSN, set := setString (fun s c => { c with DSN := s }) },
    { Name := "MaxIdleConn", kind := .Int, tag := "10", exported := true,
      get := fun c => .int c.MaxIdleConn,
      set := setInt (fun n c => { c with MaxIdleConn := n }) },
    { Name := "MaxOpenConn", kind := .Int, tag := "100", exported := true,
      get := fun c => .int c.MaxOpenConn,
      set := setInt (fun n c => { c with MaxOpenConn := n }) },
    { Name := "ConnMaxLifetime", kind := .Int, tag := "300", exported := true,
      get := fun c => .int c.ConnMaxLifetime,
      set := setInt (fun n c => { c with ConnMaxLifetime := n }) },
    { Name := "ConnMaxIdleTime", kind := .Int, tag := "300", exported := true,
      get := fun c => .int c.ConnMaxIdleTime,
      set := setInt (fun n c => { c with ConnMaxIdleTime := n }) },
    { Name := "SlowLogThreshold", kind := .Int, tag := "1000", exported := true,
      get := fun c => .int c.SlowLogThreshold,
      set := setInt (fun n c => { c with SlowLogThreshold := n }) },
    { Name := "EnableDebug", kind := .Bool, tag := "false", exported := true,
      get := fun c => .bool c.EnableDebug,
      set := setBool (fun b c => { c with EnableDebug := b }) },
    { Name := "EnableMetric", kind := .Bool, tag := "false", exported := true,
      get := fun c => .bool c.EnableMetric,
      set := setBool (fun b c => { c with EnableMetric := b }) },
    { Name := "EnableTrace", kind := .Bool, tag := "true", exported := true,
      get := fun c => .bool c.EnableTrace,
      set := setBool (fun b c => { c with EnableTrace := b }) },
    { Name := "dbName", kind := .String, tag := "", exported := false,
      get := fun c => .string c.dbName, set := setString (fun s c => { c with dbName := s }) },
    { Name := "interceptors", kind := .Other, tag := "", exported := false,
      get := fun c => .other c.interceptors.isEmpty, set := fun _ c => c } ]

/-- The zero value of the struct `Config`. -/
def zeroConfig : Config :=
  { Logger := none, Type_ := "", DSN := "", MaxIdleConn := 0, MaxOpenConn := 0,
    ConnMaxLifetime := 0, ConnMaxIdleTime := 0, SlowLogThreshold := 0, EnableDebug := false,
    EnableMetric := false, EnableTrace := false, dbName := "", interceptors := [] }

/-- The value of a string of decimal digits. -/
def decimalValue (digits : List Char) : Nat :=
  digits.foldl (fun n c => 10 * n + (c.toNat - 48)) 0

/-- Whether a string is a plain decimal numeral: digits only, and no leading
zero unless it is the numeral `0`. -/
def isDecimal (digits : List Char) : Bool :=
  match digits with
  | [] => false
  | [c] => c.isDigit
  | c :: rest => c.isDigit && c != '0' && rest.all Char.isDigit

/-- A table of parsers that agrees with `strconv` on the twelve boolean
literals and on plain decimal numerals in range, and rejects every other
string; nothing is parsed as a float or as a duration. -/
def decimalParsers : Parsers :=
  { ParseBool := fun s =>
      if s = "1" ∨ s = "t" ∨ s = "T" ∨ s = "TRUE" ∨ s = "true" ∨ s = "True" then some true
      else if s = "0" ∨ s = "f" ∨ s = "F" ∨ s = "FALSE" ∨ s = "false" ∨ s = "False" then
        some false
      else none,
    ParseInt := fun s bitSize =>
      if isDecimal s.toList ∧ decimalValue s.toList < 2 ^ (bitSize - 1) then
        some (decimalValue s.toList)
      else none,
    ParseUint := fun s bitSize =>
      if isDecimal s.toList ∧ decimalValue s.toList < 2 ^ bitSize then
        some (decimalValue s.toList)
      else none,
    ParseFloat := fun _ _ => none,
    ParseDuration := fun _ => none }

/-! ## The interceptor chain -/

theorem callsOnce_apply (i : Interceptor) (callbackName : String) (config : Config) :
    ∃ pre post unwind, callsOnce (i.apply callbackName config) pre post unwind := by
  cases i with
  | debug =>
    refine ⟨id, fun s t => match t.db.Error with
        | some e => .returned (t.emit (.logPrintln (t.now - s.now) (logSQL t.db) (some e.Error)))
        | none => .returned (t.emit (.logPrintln (t.now - s.now) (logSQL t.db) none)),
      fun _ t => t, ?_⟩
    intro next s
    simp only [Interceptor.apply, invoke, debugInterceptor, id]
    cases hn : (match next with
      | none => Outcome.panicked nilDereference s
      | some h => h s) <;> simp
  | trace =>
    refine ⟨fun s => match s.db.Statement.Context with
        | some ctx => tracePrepare callbackName ctx s
        | none => s,
      fun s t => match s.db.Statement.Context with
        | some _ => traceFinish (traceOperation s.db.Statement) t
        | none => .returned t,
      fun s t => match s.db.Statement.Context with
        | some _ => t.emit .spanEnd
        | none => t, ?_⟩
    intro next s
    simp only [Interceptor.apply, invoke, traceInterceptor]
    cases hc : s.db.Statement.Context with
    | none =>
      simp only
      cases hn : (match next with
        | none => Outcome.panicked nilDereference s
        | some h => h s) <;> simp
    | some ctx =>
      simp only
      cases hn : (match next with
        | none => Outcome.panicked nilDereference (tracePrepare callbackName ctx s)
        | some h => h (tracePrepare callbackName ctx s)) <;> simp
  | metric =>
    refine ⟨id, fun s t =>
        if t.histogramNil then .returned t
        else .returned (t.emit (.histogramRecord callbackName (t.now - s.now) config.dbName
          t.db.Statement.Table)),
      fun _ t => t, ?_⟩
    intro next s
    simp only [Interceptor.apply, invoke, metricInterceptor, id]
    cases hn : (match next with
      | none => Outcome.panicked nilDereference s
      | some h => h s) <;> simp

theorem callsOnce_wrapAll (callbackName : String) (config : Config) (l : List Interceptor) :
    ∃ pre post unwind, callsOnce (wrapAll callbackName config l) pre post unwind := by
  induction l with
  | nil =>
    refine ⟨id, fun _ t => .returned t, fun _ t => t, ?_⟩
    intro next s
    simp only [wrapAll, id]
    cases invoke next s <;> rfl
  | cons i rest ih =>
    obtain ⟨pre, post, unwind, h⟩ := ih
    obtain ⟨pre1, post1, unwind1, h1⟩ := callsOnce_apply i callbackName config
    refine ⟨fun s => pre1 (pre s),
      fun s t => match post1 (pre s) t with
        | .returned u => post s u
        | .panicked msg u => .panicked msg (unwind s u),
      fun s t => unwind s (unwind1 (pre s) t), ?_⟩
    intro next s
    simp only [wrapAll]
    rw [h (i.apply callbackName config next) s, h1 next (pre s)]
    cases invoke next (pre1 (pre s)) <;> rfl

theorem wrapAll_append (callbackName : String) (config : Config) (l : List Interceptor)
    (i : Interceptor) (base : GoFunc) :
    wrapAll callbackName config (l ++ [i]) base =
      i.apply callbackName config (wrapAll callbackName config l base) := by
  induction l generalizing base with
  | nil => rfl
  | cons j rest ih => exact ih (j.apply callbackName config base)

theorem wrapAll_eq_foldr (callbackName : String) (config : Config) (l : List Interceptor)
    (base : GoFunc) :
    wrapAll callbackName config l base =
      l.reverse.foldr (fun i h => i.apply callbackName config h) base := by
  induction l generalizing base with
  | nil => rfl
  | cons j rest ih => simp only [wrapAll, ih, List.reverse_cons, List.foldr_append, List.foldr]

theorem replaceEach_replaced (config : Config) (kinds : List (Processor × String)) :
    ∀ (g g1 : GormDB), (replaceEach config g kinds).1 = .ok g1 →
      g1.replaced = g.replaced ++
          kinds.map (fun pn => (pn.2, installedHandler config pn.1 pn.2)) ∧
        operationKinds g1 = operationKinds g := by
  induction kinds with
  | nil =>
    intro g g1 h
    simp only [replaceEach, Except.ok.injEq] at h
    subst h
    simp
  | cons pn rest ih =>
    intro g g1 h
    obtain ⟨processor, callbackName⟩ := pn
    simp only [replaceEach] at h
    cases hr : replace config processor callbackName with
    | some e => simp [hr] at h
    | none =>
      simp only [hr] at h
      obtain ⟨h1, h2⟩ := ih _ g1 h
      refine ⟨?_, ?_⟩
      · simp only [h1, List.map_cons, List.append_assoc, List.singleton_append]
      · simpa [operationKinds] using h2

theorem newDB_ok_inv (env : Env) (config : Config) (g : GormDB)
    (h : (newDB env config).1 = .ok g) :
    ∃ l opened gormDB db name replaces,
      config.Logger = some l ∧
      openDriver env config = (.ok (some gormDB), opened) ∧
      gormDB.conn = .ok db ∧ db.ping = none ∧ db.database = .ok name ∧
      replaceEach (assembleInterceptors { config with dbName := name }) gormDB
        (operationKinds gormDB) = (.ok g, replaces) ∧
      newDB env config =
        (.ok g, assembleInterceptors { config with dbName := name },
          [Effect.newZapLog l.Logger] ++ opened ++ poolSettings config ++ [.ping] ++
            [.queryRow "SELECT DATABASE()"] ++ replaces) := by
  unfold newDB at h
  split at h
  · simp at h
  · rename_i l hl
    split at h
    · simp at h
    · simp at h
    · rename_i gormDB opened ho
      split at h
      · simp at h
      · rename_i db hc
        split at h
        · simp at h
        · rename_i hp
          split at h
          · simp at h
          · rename_i name hd
            dsimp only at h
            split at h
            · simp at h
            · rename_i g1 replaces hre
              simp only [Result.ok.injEq] at h
              subst h
              refine ⟨l, opened, gormDB, db, name, replaces, hl, ho, hc, hp, hd, hre, ?_⟩
              have hre1 := hre
              unfold newDB
              simp only [hl] at hre1 ⊢
              simp only [ho, hc, hp, hd, hre1]

theorem newDB_replaced (env : Env) (config : Config) (g : GormDB)
    (h : (newDB env config).1 = .ok g) :
    ∀ pn ∈ operationKinds g,
      (pn.2, installedHandler (newDB env config).2.1 pn.1 pn.2) ∈ g.replaced := by
  obtain ⟨l, opened, gormDB, db, name, replaces, _, _, _, _, _, hre, hnew⟩ :=
    newDB_ok_inv env config g h
  have hh := replaceEach_replaced (assembleInterceptors { config with dbName := name })
    (operationKinds gormDB) gormDB g (by rw [hre])
  intro pn hpn
  rw [hh.2] at hpn
  rw [hnew, hh.1]
  exact List.mem_append_right _ (List.mem_map.mpr ⟨pn, hpn, rfl⟩)

/-- C1 (amended): the handler that `replace` hands to `Replace` is the loop
result `in(...(i2(i1(base))))` for the list `[i1, ..., in]`: the last interceptor
of the list is the outermost wrapper and the first one calls the base handler;
with all three flags on the nest is metric(trace(debug(base))); one call of the
installed handler calls the base handler exactly once; and this handler is the
one `newDB` installs for each of the six kinds. -/
theorem installed_handler_wraps_in_list_order (env : Env) (config : Config)
    (processor : Processor) (callbackName : String) :
    replace config processor callbackName =
        processor.Replace callbackName
          (config.interceptors.reverse.foldr (fun i h => i.apply callbackName config h)
            (processor.Get callbackName)) ∧
      (∀ i1 i2 i3 : Interceptor, config.interceptors = [i1, i2, i3] →
        installedHandler config processor callbackName =
          i3.apply callbackName config (i2.apply callbackName config
            (i1.apply callbackName config (processor.Get callbackName)))) ∧
      (config.EnableDebug = true → config.EnableTrace = true → config.EnableMetric = true →
        installedHandler (assembleInterceptors config) processor callbackName =
          some (metricInterceptor callbackName (assembleInterceptors config)
            (some (traceInterceptor callbackName (assembleInterceptors config)
              (some (debugInterceptor callbackName (assembleInterceptors config)
                (processor.Get callbackName))))))) ∧
      (∃ pre post unwind,
        callsOnce (wrapAll callbackName config config.interceptors) pre post unwind) ∧
      (∀ g : GormDB, (newDB env config).1 = .ok g → ∀ pn ∈ operationKinds g,
        (pn.2, installedHandler (newDB env config).2.1 pn.1 pn.2) ∈ g.replaced) := by
  refine ⟨?_, ?_, ?_, callsOnce_wrapAll callbackName config config.interceptors,
    fun g h => newDB_replaced env config g h⟩
  · simp only [replace, installedHandler, wrapAll_eq_foldr]
  · intro i1 i2 i3 h
    simp only [installedHandler, h, wrapAll]
  · intro hd ht hm
    simp only [installedHandler, assembleInterceptors, hd, ht, hm, if_true, List.nil_append,
      List.singleton_append, List.cons_append, wrapAll, Interceptor.apply]

/-- The installed-handler theorem at the configuration with all three flags
on, the processor `idleProcessor` and the environment `sampleEnv`. -/
theorem installed_handler_wraps_in_list_order_witness :
    (assembleInterceptors (sampleConfig true true true)).interceptors =
        [.debug, .trace, .metric] ∧
      installedHandler (assembleInterceptors (sampleConfig true true true)) idleProcessor
          "gorm:query" =
        Interceptor.metric.apply "gorm:query" (assembleInterceptors (sampleConfig true true true))
          (Interceptor.trace.apply "gorm:query" (assembleInterceptors (sampleConfig true true true))
            (Interceptor.debug.apply "gorm:query"
              (assembleInterceptors (sampleConfig true true true))
              (idleProcessor.Get "gorm:query"))) ∧
      installedHandler (assembleInterceptors (sampleConfig true true true)) idleProcessor
          "gorm:query" =
        some (metricInterceptor "gorm:query" (assembleInterceptors (sampleConfig true true true))
          (some (traceInterceptor "gorm:query" (assembleInterceptors (sampleConfig true true true))
            (some (debugInterceptor "gorm:query"
              (assembleInterceptors (sampleConfig true true true))
              (idleProcessor.Get "gorm:query")))))) ∧
      ∃ g : GormDB, (newDB sampleEnv (sampleConfig true true true)).1 = .ok g ∧
        ∀ pn ∈ operationKinds g,
          (pn.2, installedHandler (newDB sampleEnv (sampleConfig true true true)).2.1 pn.1 pn.2)
            ∈ g.replaced :=
  ⟨rfl,
   (installed_handler_wraps_in_list_order sampleEnv
      (assembleInterceptors (sampleConfig true true true)) idleProcessor "gorm:query").2.1
      .debug .trace .metric rfl,
   (installed_handler_wraps_in_list_order sampleEnv (sampleConfig true true true)
      idleProcessor "gorm:query").2.2.1 rfl rfl rfl,
   _, rfl,
   (installed_handler_wraps_in_list_order sampleEnv (sampleConfig true true true)
      idleProcessor "gorm:query").2.2.2.2 _ rfl⟩

/-- C1 as stated fails: with the list `[debug, metric]` the installed handler is
not `debug(metric(base))`. On `sampleState` the installed handler logs first and
records the histogram last, the claimed nest does the opposite. -/
theorem first_interceptor_is_not_outermost :
    ¬ ∀ (config : Config) (processor : Processor) (callbackName : String),
        installedHandler config processor callbackName =
          config.interceptors.foldr (fun i h => i.apply callbackName config h)
            (processor.Get callbackName) := by
  intro h
  have h1 := congrArg (fun f => invoke f sampleState)
    (h (assembleInterceptors (sampleConfig true false true)) idleProcessor "gorm:query")
  revert h1
  decide

/-! ## Pass-through of the call's error -/

theorem debugInterceptor_keeps_db (callbackName : String) (config : Config) (next : GoFunc)
    (s t : State) (h : invoke next s = .returned t) :
    ∃ u, debugInterceptor callbackName config next s = .returned u ∧ u.db = t.db := by
  simp only [debugInterceptor, h]
  cases he : t.db.Error <;> simp [State.emit]

theorem metricInterceptor_keeps_db (callbackName : String) (config : Config) (next : GoFunc)
    (s t : State) (h : invoke next s = .returned t) :
    ∃ u, metricInterceptor callbackName config next s = .returned u ∧ u.db = t.db := by
  simp only [metricInterceptor, h]
  cases hn : t.histogramNil <;> simp [State.emit]

theorem traceInterceptor_untraced (callbackName : String) (config : Config) (next : GoFunc)
    (s : State) (h : s.db.Statement.Context = none) :
    traceInterceptor callbackName config next s = invoke next s := by
  simp only [traceInterceptor, h]

/-- C2 at the failing input: when the call carries a tracing context and the
inner handler returns with no error, the handler built by `traceInterceptor`
does not return. It sets the span attributes, calls `RecordError(nil)`, panics
on `db.Error.Error()` (line 102) and only the deferred `span.End()` still runs. -/
theorem traceInterceptor_panics_on_traced_success (callbackName : String) (config : Config)
    (next : GoFunc) (s t : State) (ctx : TraceContext)
    (hctx : s.db.Statement.Context = some ctx)
    (hnext : invoke next (tracePrepare callbackName ctx s) = .returned t)
    (hok : t.db.Error = none) :
    traceInterceptor callbackName config next s =
      .panicked nilDereference
        { t with out := t.out ++
          [.spanSetAttributes t.db.DialectorName (logSQL t.db) (traceOperation s.db.Statement)
              t.db.Statement.Table t.db.RowsAffected,
            .spanRecordError none, .spanEnd] } := by
  simp [traceInterceptor, hctx, hnext, traceFinish, State.emit, hok, errorsIsRecordNotFound]

/-- The panic on a traced successful call, at `tracedState` with a base handler
that leaves no error. -/
theorem traceInterceptor_panics_on_traced_success_witness :
    ∃ u, traceInterceptor "gorm:query" (sampleConfig false true false) (some idleHandler)
      tracedState = .panicked nilDereference u :=
  ⟨_, traceInterceptor_panics_on_traced_success "gorm:query" (sampleConfig false true false)
    (some idleHandler) tracedState _ { traceID := "4bf92f35" } rfl rfl rfl⟩

/-- C3: on a call that carries a tracing context and whose inner handler returns
with a non-nil error `e`, the trace interceptor returns and leaves the call as
the inner handler left it; after the span attributes it sets the status `Ok`
without recording an error when `e` is or wraps the record-not-found sentinel,
and otherwise records `e` and sets the status `Error` with the message of `e`;
the span is then ended. -/
theorem traceInterceptor_marks_span (callbackName : String) (config : Config)
    (next : GoFunc) (s t : State) (ctx : TraceContext) (e : GoError)
    (hctx : s.db.Statement.Context = some ctx)
    (hnext : invoke next (tracePrepare callbackName ctx s) = .returned t)
    (herr : t.db.Error = some e) :
    traceInterceptor callbackName config next s =
      .returned { t with out := t.out ++
        ([.spanSetAttributes t.db.DialectorName (logSQL t.db) (traceOperation s.db.Statement)
            t.db.Statement.Table t.db.RowsAffected] ++
          (if e.isRecordNotFound then [.spanSetStatus .Ok "OK", .spanEnd]
           else [.spanRecordError (some e), .spanSetStatus .Error e.Error, .spanEnd])) } := by
  cases hrec : e.isRecordNotFound <;>
    simp [traceInterceptor, hctx, hnext, traceFinish, State.emit, herr, errorsIsRecordNotFound,
      hrec]

/-- The span marking at `tracedState`, for an inner handler that ends with an
error wrapping the record-not-found sentinel and for one that ends with another
error. -/
theorem traceInterceptor_marks_span_witness :
    (∃ u : State, traceInterceptor "gorm:query" (sampleConfig false true false)
        (some (failingHandler (.wrapped "find user" .recordNotFound))) tracedState =
          .returned u ∧
        u.db.Error = some (.wrapped "find user" .recordNotFound) ∧
        u.out.drop 1 =
          [.spanSetAttributes "mysql" { sql := "/* traceId=4bf92f35 */ SELECT 1", vars := [] }
              (traceOperation sampleStatement) "example" 0,
            .spanSetStatus .Ok "OK", .spanEnd]) ∧
    (∃ u : State, traceInterceptor "gorm:query" (sampleConfig false true false)
        (some (failingHandler (.plain "duplicate key"))) tracedState = .returned u ∧
        u.db.Error = some (.plain "duplicate key") ∧
        u.out.drop 1 =
          [.spanSetAttributes "mysql" { sql := "/* traceId=4bf92f35 */ SELECT 1", vars := [] }
              (traceOperation sampleStatement) "example" 0,
            .spanRecordError (some (.plain "duplicate key")),
            .spanSetStatus .Error "duplicate key", .spanEnd]) :=
  ⟨⟨_, traceInterceptor_marks_span "gorm:query" (sampleConfig false true false)
      (some (failingHandler (.wrapped "find user" .recordNotFound))) tracedState _
      { traceID := "4bf92f35" } (.wrapped "find user" .recordNotFound) rfl rfl rfl, rfl, rfl⟩,
   ⟨_, traceInterceptor_marks_span "gorm:query" (sampleConfig false true false)
      (some (failingHandler (.plain "duplicate key"))) tracedState _
      { traceID := "4bf92f35" } (.plain "duplicate key") rfl rfl rfl, rfl, rfl⟩⟩

/-! ## The registry -/

/-- C4: when the registry maps the name to a non-nil wrapper, `NewWrapper`
returns that wrapper and no error whatever the configuration is, and leaves the
configuration and the whole world as they were: the registry is unchanged and
the count of `newDB` calls does not move. The name is the first variadic
argument, and `default` when there is none. -/
theorem NewWrapper_returns_stored_wrapper (env : Env) (config : Config) (w : World)
    (value : Wrapper) :
    (∀ (n : String) (rest : List String), w.instances.Load n = some (some value) →
      NewWrapper env config (n :: rest) w = (.ok value, config, w)) ∧
    (w.instances.Load "default" = some (some value) →
      NewWrapper env config [] w = (.ok value, config, w)) := by
  constructor
  · intro n rest h
    simp only [NewWrapper, wrapperName, h]
  · intro h
    simp only [NewWrapper, wrapperName, h]

/-- The stored wrappers of `sampleWorld` are returned for a configuration that
cannot be built. -/
theorem NewWrapper_returns_stored_wrapper_witness :
    NewWrapper failingEnv brokenConfig ["x"] sampleWorld =
        (.ok { addr := 0, db := sampleHandle 1 }, brokenConfig, sampleWorld) ∧
      NewWrapper failingEnv brokenConfig [] sampleWorld =
        (.ok { addr := 1, db := sampleHandle 2 }, brokenConfig, sampleWorld) :=
  ⟨(NewWrapper_returns_stored_wrapper failingEnv brokenConfig sampleWorld
      { addr := 0, db := sampleHandle 1 }).1 "x" [] rfl,
   (NewWrapper_returns_stored_wrapper failingEnv brokenConfig sampleWorld
      { addr := 1, db := sampleHandle 2 }).2 rfl⟩

theorem NewWrapper_miss (env : Env) (config : Config) (obj : List String) (w : World)
    (h : w.instances.Load (wrapperName obj) = none) :
    NewWrapper env config obj w =
      match newDB env config with
      | (.panic msg, config, effects) =>
        (.panic msg, config, { w with effects := w.effects ++ effects, builds := w.builds + 1 })
      | (.error e, config, effects) =>
        (.error e, config, { w with effects := w.effects ++ effects, builds := w.builds + 1 })
      | (.ok gormDB, config, effects) =>
        (.ok { addr := w.allocs, db := gormDB }, config,
          { instances := w.instances.Store (wrapperName obj) (some { addr := w.allocs, db := gormDB }),
            effects := w.effects ++ effects,
            allocs := w.allocs + 1,
            builds := w.builds + 1 }) := by
  simp only [NewWrapper, h]

theorem NewWrapper_miss_builds (env : Env) (config : Config) (obj : List String) (w : World)
    (h : w.instances.Load (wrapperName obj) = none) :
    (NewWrapper env config obj w).2.2.builds = w.builds + 1 := by
  rw [NewWrapper_miss env config obj w h]
  rcases newDB env config with ⟨r, c, effects⟩
  cases r <;> rfl

/-- C5: when the name is not in the registry and `newDB` returns the error `e`,
`NewWrapper` returns `e` and no wrapper, the registry afterwards is the registry
before (so the name is still not in it), and a later `NewWrapper` for the name,
with any configuration, calls `newDB` again. -/
theorem NewWrapper_failed_build_leaves_registry (env : Env) (config : Config) (n : String)
    (rest : List String) (w : World) (e : GoError)
    (hmiss : w.instances.Load n = none)
    (hfail : (newDB env config).1 = .error e) :
    (NewWrapper env config (n :: rest) w).1 = .error e ∧
      (NewWrapper env config (n :: rest) w).2.2.instances = w.instances ∧
      (NewWrapper env config (n :: rest) w).2.2.instances.Load n = none ∧
      (NewWrapper env config (n :: rest) w).2.2.builds = w.builds + 1 ∧
      ∀ (config2 : Config) (rest2 : List String),
        (NewWrapper env config2 (n :: rest2) (NewWrapper env config (n :: rest) w).2.2).2.2.builds =
          w.builds + 2 := by
  have hinst : (NewWrapper env config (n :: rest) w).1 = .error e ∧
      (NewWrapper env config (n :: rest) w).2.2.instances = w.instances := by
    rw [NewWrapper_miss env config (n :: rest) w hmiss]
    rcases hn : newDB env config with ⟨r, c, effects⟩
    rw [hn] at hfail
    simp only at hfail
    subst hfail
    exact ⟨rfl, rfl⟩
  have hb := NewWrapper_miss_builds env config (n :: rest) w hmiss
  refine ⟨hinst.1, hinst.2, ?_, hb, ?_⟩
  · rw [hinst.2]; exact hmiss
  · intro config2 rest2
    rw [NewWrapper_miss_builds env config2 (n :: rest2) _ (by
      show Registry.Load _ n = none
      rw [hinst.2]; exact hmiss), hb]

/-- The failed build at `failingEnv`: the name `y` is not in `sampleWorld`, the
open error comes back, and the registry still has its two entries. -/
theorem NewWrapper_failed_build_leaves_registry_witness :
    (NewWrapper failingEnv (sampleConfig true true true) ["y"] sampleWorld).1 =
        .error (.plain "connection refused") ∧
      (NewWrapper failingEnv (sampleConfig true true true) ["y"] sampleWorld).2.2.instances =
        sampleWorld.instances ∧
      (NewWrapper failingEnv (sampleConfig true true true) ["y"] sampleWorld).2.2.builds = 3 :=
  ⟨(NewWrapper_failed_build_leaves_registry failingEnv (sampleConfig true true true) "y" []
      sampleWorld (.plain "connection refused") rfl rfl).1,
   (NewWrapper_failed_build_leaves_registry failingEnv (sampleConfig true true true) "y" []
      sampleWorld (.plain "connection refused") rfl rfl).2.1,
   (NewWrapper_failed_build_leaves_registry failingEnv (sampleConfig true true true) "y" []
      sampleWorld (.plain "connection refused") rfl rfl).2.2.2.1⟩

/-! ## The interceptor list and the installation of the chains -/

theorem assembleInterceptors_eq (config : Config) :
    assembleInterceptors config =
      { config with interceptors :=
          [Interceptor.debug, .trace, .metric].filter (Interceptor.enabled config) } := by
  rcases config with ⟨lg, ty, dsn, a, b, c, d, sl, ed, em, et, nm, ics⟩
  cases ed <;> cases em <;> cases et <;> rfl

/-- C7: the interceptor list that `newDB` assembles is `[debug, trace, metric]`
without the entries whose flag is false, whatever the list held before: it has
at most three entries, none twice, in the order debug, trace, metric; the other
fields of the configuration are not touched by the assembly, and a successful
`newDB` leaves exactly this list in the configuration. -/
theorem assembled_list_is_filtered (env : Env) (config : Config) :
    (assembleInterceptors config).interceptors =
        [Interceptor.debug, .trace, .metric].filter (Interceptor.enabled config) ∧
      (assembleInterceptors config).interceptors.length ≤ 3 ∧
      (assembleInterceptors config).interceptors.Nodup ∧
      List.Sublist (assembleInterceptors config).interceptors
        [Interceptor.debug, .trace, .metric] ∧
      (∀ previous : List Interceptor,
        assembleInterceptors { config with interceptors := previous } =
          assembleInterceptors config) ∧
      (∀ g : GormDB, (newDB env config).1 = .ok g →
        (newDB env config).2.1.interceptors =
          [Interceptor.debug, .trace, .metric].filter (Interceptor.enabled config)) := by
  have hsub : List.Sublist (assembleInterceptors config).interceptors
      [Interceptor.debug, .trace, .metric] := by
    rw [assembleInterceptors_eq]
    exact List.filter_sublist _
  refine ⟨by rw [assembleInterceptors_eq], ?_, ?_, hsub, ?_, ?_⟩
  · simpa using hsub.length_le
  · exact hsub.nodup (by decide)
  · intro previous
    rw [assembleInterceptors_eq, assembleInterceptors_eq]
    rfl
  · intro g h
    obtain ⟨l, opened, gormDB, db, name, replaces, _, _, _, _, _, _, hnew⟩ :=
      newDB_ok_inv env config g h
    rw [hnew, assembleInterceptors_eq]
    rfl

/-- The assembled list after a successful build in `sampleEnv` with the debug
and metric flags on and the trace flag off. -/
theorem assembled_list_is_filtered_witness :
    ∃ g : GormDB, (newDB sampleEnv (sampleConfig true false true)).1 = .ok g ∧
      (newDB sampleEnv (sampleConfig true false true)).2.1.interceptors = [.debug, .metric] :=
  ⟨_, rfl,
    (assembled_list_is_filtered sampleEnv (sampleConfig true false true)).2.2.2.2.2 _ rfl⟩

theorem replaceEach_error (config : Config) (p : Processor) (n : String)
    (post : List (Processor × String)) (e : GoError) (he : replace config p n = some e) :
    ∀ (pre : List (Processor × String)) (g : GormDB),
      (∀ q ∈ pre, replace config q.1 q.2 = none) →
      (replaceEach config g (pre ++ (p, n) :: post)).1 = .error e := by
  intro pre
  induction pre with
  | nil =>
    intro g _
    simp only [List.nil_append, replaceEach, he]
  | cons q rest ih =>
    intro g hq
    obtain ⟨q1, q2⟩ := q
    have h1 : replace config q1 q2 = none := hq (q1, q2) (List.mem_cons_self _ _)
    simp only [List.cons_append, replaceEach, h1]
    exact ih _ (fun r hr => hq r (List.mem_cons_of_mem _ hr))

theorem wrapAll_nil_panics (callbackName : String) (config : Config) (l : List Interceptor)
    (s : State) :
    ∃ msg t, invoke (wrapAll callbackName config l none) s = .panicked msg t := by
  obtain ⟨pre, post, unwind, h⟩ := callsOnce_wrapAll callbackName config l
  exact ⟨nilDereference, unwind s (pre s), by rw [h none s]; rfl⟩

/-- C10 (amended): installing the chain for a kind returns exactly what the
processor's `Replace` returns for the composed handler, whether or not `Get`
returned nil: a nil base handler is handed on as it is when the list is empty,
and otherwise wrapped into a handler that panics when it is called. When
`Replace` returns an error for a kind and the kinds before it were accepted,
`newDB` returns that error and no handle. -/
theorem replace_returns_result_of_Replace (env : Env) (config : Config)
    (processor : Processor) (callbackName : String) :
    replace config processor callbackName =
        processor.Replace callbackName
          (wrapAll callbackName config config.interceptors (processor.Get callbackName)) ∧
      (processor.Get callbackName = none → config.interceptors = [] →
        replace config processor callbackName = processor.Replace callbackName none) ∧
      (processor.Get callbackName = none →
        ∀ s, ∃ msg t, invoke (installedHandler config processor callbackName) s =
          .panicked msg t) ∧
      (∀ (l : LogLogger) (opened : List Effect) (gormDB : GormDB) (db : SqlDB) (name : String)
          (pre post : List (Processor × String)) (p : Processor) (n : String) (e : GoError),
        config.Logger = some l →
        openDriver env config = (.ok (some gormDB), opened) →
        gormDB.conn = .ok db → db.ping = none → db.database = .ok name →
        operationKinds gormDB = pre ++ (p, n) :: post →
        (∀ q ∈ pre, replace (assembleInterceptors { config with dbName := name }) q.1 q.2 = none) →
        replace (assembleInterceptors { config with dbName := name }) p n = some e →
        (newDB env config).1 = .error e) := by
  refine ⟨rfl, ?_, ?_, ?_⟩
  · intro hg hl
    simp only [replace, installedHandler, hg, hl, wrapAll]
  · intro hg s
    simp only [installedHandler, hg]
    exact wrapAll_nil_panics callbackName config config.interceptors s
  · intro l opened gormDB db name pre post p n e hl ho hc hp hd hk hpre he
    have key := replaceEach_error (assembleInterceptors { config with dbName := name }) p n post e
      he pre gormDB hpre
    rw [← hk] at key
    rcases hre : replaceEach (assembleInterceptors { config with dbName := name }) gormDB
      (operationKinds gormDB) with ⟨r, replaces⟩
    rw [hre] at key
    simp only at key
    subst key
    unfold newDB
    simp only [hl] at hre ⊢
    simp only [ho, hc, hp, hd, hre]

/-- The rejected replacement of the query callback in `rejectingEnv`: the three
kinds before it are accepted, and `newDB` returns the error of `Replace`. -/
theorem replace_returns_result_of_Replace_witness :
    (newDB rejectingEnv (sampleConfig true true true)).1 =
      .error (.plain "conflicting callback") :=
  (replace_returns_result_of_Replace rejectingEnv (sampleConfig true true true)
      emptyProcessor "gorm:create").2.2.2
    { Logger := some { id := 0 } } [.gormOpen "mysql" "dsn"] _ _ "app"
    [(emptyProcessor, "gorm:create"), (emptyProcessor, "gorm:update"),
      (emptyProcessor, "gorm:delete")]
    [(emptyProcessor, "gorm:row"), (emptyProcessor, "gorm:raw")]
    rejectingProcessor "gorm:query" (.plain "conflicting callback")
    rfl rfl rfl rfl rfl rfl (by intro q hq; simp at hq; rcases hq with h | h | h <;> subst h <;> rfl)
    rfl

/-- C10 as stated fails: in `emptyEnv` no kind has a base handler (`Get` returns
nil for every name), yet installing the chain returns no error, for the empty
list and for the list of all three interceptors, and `newDB` returns a handle. -/
theorem missing_base_handler_is_not_reported :
    emptyProcessor.Get "gorm:create" = none ∧
      replace (assembleInterceptors (sampleConfig false false false)) emptyProcessor
        "gorm:create" = none ∧
      replace (assembleInterceptors (sampleConfig true true true)) emptyProcessor
        "gorm:create" = none ∧
      (newDB emptyEnv (sampleConfig true true true)).1.isOk = true :=
  ⟨rfl, rfl, rfl, rfl⟩

/-! ## The monitor -/

theorem listed_eq_true_iff (l : List String) (name : String) :
    listed l name = true ↔ name ∈ l := by
  induction l with
  | nil => simp [listed]
  | cons a rest ih =>
    by_cases h : a = name
    · simp [listed, h]
    · have h1 : ¬ name = a := fun h2 => h h2.symm
      simp [listed, h, h1, ih]

theorem listed_eq_false_iff (l : List String) (name : String) :
    listed l name = false ↔ name ∉ l := by
  rw [← listed_eq_true_iff]
  cases listed l name <;> simp

theorem monitorVisit_listed (st : MonitorState) (key : String) (val : Option Wrapper)
    (h : key ∈ st.listMonitor) : monitorVisit st key val = .goOn st := by
  simp only [monitorVisit, (listed_eq_true_iff _ _).mpr h, if_true]

theorem gaugeNames_nodup : gaugeNames.Nodup := by decide

theorem monitorVisit_nil (st : MonitorState) (key : String)
    (hl : listed st.listMonitor key = false) :
    monitorVisit st key none =
      .panic { st with listMonitor := st.listMonitor ++ [key],
                       printed := st.printed ++ [.started key] } := by
  simp [monitorVisit, hl]

theorem monitorVisit_error (st : MonitorState) (key : String) (wrap : Wrapper) (err : GoError)
    (hl : listed st.listMonitor key = false) (hc : wrap.db.conn = .error err) :
    monitorVisit st key (some wrap) =
      .halt { st with listMonitor := st.listMonitor ++ [key],
                      printed := st.printed ++ [.started key] ++ [.dbError err] } := by
  simp [monitorVisit, hl, hc]

theorem monitorVisit_ok (st : MonitorState) (key : String) (wrap : Wrapper) (sqlDB : SqlDB)
    (hl : listed st.listMonitor key = false) (hc : wrap.db.conn = .ok sqlDB) :
    monitorVisit st key (some wrap) =
      .goOn { listMonitor := st.listMonitor ++ [key],
              gauges := st.gauges ++ gaugeNames.map (fun g => (g, key)),
              printed := st.printed ++ [.started key] } := by
  simp [monitorVisit, hl, hc]

theorem monitorVisit_wellFormed (st : MonitorState) (key : String) (val : Option Wrapper)
    (h : st.wellFormed) : (monitorVisit st key val).state.wellFormed := by
  obtain ⟨h1, h2, h3⟩ := h
  by_cases hl : key ∈ st.listMonitor
  · rw [monitorVisit_listed st key val hl]
    exact ⟨h1, h2, h3⟩
  · have hl1 : listed st.listMonitor key = false := (listed_eq_false_iff _ _).mpr hl
    have hnd : (st.listMonitor ++ [key]).Nodup :=
      List.Nodup.append h1 (List.nodup_singleton key) (by
        intro a ha ha1
        rw [List.mem_singleton] at ha1
        exact hl (ha1 ▸ ha))
    have hsub : ∀ g n, (g, n) ∈ st.gauges → n ∈ st.listMonitor ++ [key] :=
      fun g n hg => List.mem_append_left _ (h3 g n hg)
    cases val with
    | none =>
      rw [monitorVisit_nil st key hl1]
      exact ⟨hnd, h2, hsub⟩
    | some wrap =>
      cases hc : wrap.db.conn with
      | error err =>
        rw [monitorVisit_error st key wrap err hl1 hc]
        exact ⟨hnd, h2, hsub⟩
      | ok sqlDB =>
        rw [monitorVisit_ok st key wrap sqlDB hl1 hc]
        refine ⟨hnd, ?_, ?_⟩
        · refine List.Nodup.append h2 ?_ ?_
          · exact gaugeNames_nodup.map (fun a b hab => by simpa using hab)
          · intro x hx hx1
            obtain ⟨g, _, rfl⟩ := List.mem_map.mp hx1
            exact hl (h3 g key hx)
        · intro g n hg
          rcases List.mem_append.mp hg with hg | hg
          · exact hsub g n hg
          · obtain ⟨g1, _, heq⟩ := List.mem_map.mp hg
            simp only [Prod.mk.injEq] at heq
            exact List.mem_append_right _ (by simp [heq.2])

theorem sweep_wellFormed (entries : List (String × Option Wrapper)) :
    ∀ st : MonitorState, st.wellFormed → (sweep entries st).state.wellFormed := by
  induction entries with
  | nil => intro st h; exact h
  | cons entry rest ih =>
    intro st h
    obtain ⟨key, val⟩ := entry
    have hv := monitorVisit_wellFormed st key val h
    simp only [sweep]
    cases hm : monitorVisit st key val with
    | goOn st1 => rw [hm] at hv; exact ih st1 hv
    | halt st1 => rw [hm] at hv; exact hv
    | panic st1 => rw [hm] at hv; exact hv

theorem sweeps_wellFormed (enumerations : List (List (String × Option Wrapper))) :
    ∀ st : MonitorState, st.wellFormed → (sweeps enumerations st).state.wellFormed := by
  induction enumerations with
  | nil => intro st h; exact h
  | cons entries rest ih =>
    intro st h
    have hs := sweep_wellFormed entries st h
    simp only [sweeps]
    cases hm : sweep entries st with
    | finished st1 => rw [hm] at hs; exact ih st1 hs
    | panicked st1 => rw [hm] at hs; exact hs

/-- C9: after any number of sweeps over any sequence of registry contents,
started from the empty list, no name is listed twice and no gauge callback is
registered twice for a name; and a visit of a name that is already listed
returns `true` at once, with the list, the gauges and the log unchanged. -/
theorem monitor_registers_each_name_once
    (enumerations : List (List (String × Option Wrapper))) :
    (sweeps enumerations MonitorState.init).state.listMonitor.Nodup ∧
      (sweeps enumerations MonitorState.init).state.gauges.Nodup ∧
      (∀ (st : MonitorState) (key : String) (val : Option Wrapper),
        key ∈ st.listMonitor → monitorVisit st key val = .goOn st) := by
  have h := sweeps_wellFormed enumerations MonitorState.init
    ⟨List.nodup_nil, List.nodup_nil, fun g n hg => by simp [MonitorState.init] at hg⟩
  exact ⟨h.1, h.2.1, fun st key val hk => monitorVisit_listed st key val hk⟩

/-- The visit of a listed name, at the state reached by two sweeps over
`brokenFirst`: both names are listed once, and visiting `b` again changes nothing. -/
theorem monitor_registers_each_name_once_witness :
    (sweeps [brokenFirst, brokenFirst] MonitorState.init).state.listMonitor = ["a", "b"] ∧
      monitorVisit (sweeps [brokenFirst, brokenFirst] MonitorState.init).state "b"
          (some { addr := 1, db := sampleHandle 2 }) =
        .goOn (sweeps [brokenFirst, brokenFirst] MonitorState.init).state :=
  ⟨by decide,
   (monitor_registers_each_name_once [brokenFirst, brokenFirst]).2.2 _ "b" _ (by decide)⟩

theorem monitorVisit_gauges_mono (st : MonitorState) (key : String) (val : Option Wrapper)
    (x : String × String) (hx : x ∈ st.gauges) : x ∈ (monitorVisit st key val).state.gauges := by
  by_cases hl : key ∈ st.listMonitor
  · rw [monitorVisit_listed st key val hl]; exact hx
  · have hl1 : listed st.listMonitor key = false := (listed_eq_false_iff _ _).mpr hl
    cases val with
    | none => rw [monitorVisit_nil st key hl1]; exact hx
    | some wrap =>
      cases hc : wrap.db.conn with
      | error err => rw [monitorVisit_error st key wrap err hl1 hc]; exact hx
      | ok sqlDB =>
        rw [monitorVisit_ok st key wrap sqlDB hl1 hc]
        exact List.mem_append_left _ hx

theorem sweep_gauges_mono (entries : List (String × Option Wrapper)) (x : String × String) :
    ∀ st : MonitorState, x ∈ st.gauges → x ∈ (sweep entries st).state.gauges := by
  induction entries with
  | nil => intro st h; exact h
  | cons entry rest ih =>
    intro st h
    obtain ⟨key, val⟩ := entry
    have hv := monitorVisit_gauges_mono st key val x h
    simp only [sweep]
    cases hm : monitorVisit st key val with
    | goOn st1 => rw [hm] at hv; exact ih st1 hv
    | halt st1 => rw [hm] at hv; exact hv
    | panic st1 => rw [hm] at hv; exact hv

theorem sweep_cons (key : String) (val : Option Wrapper)
    (rest : List (String × Option Wrapper)) (st : MonitorState) :
    sweep ((key, val) :: rest) st =
      match monitorVisit st key val with
      | .goOn st1 => sweep rest st1
      | .halt st1 => .finished st1
      | .panic st1 => .panicked st1 := rfl

theorem sweep_registers_iff (b : String) (wb : Wrapper) (sqlDB : SqlDB)
    (post : List (String × Option Wrapper)) (hhealthy : wb.db.conn = .ok sqlDB)
    (pre : List (String × Wrapper)) :
    ∀ st : MonitorState, b ∉ st.listMonitor → (∀ g, (g, b) ∉ st.gauges) →
      (pre.map Prod.fst ++ [b]).Nodup →
      ((∀ g ∈ gaugeNames, (g, b) ∈
          (sweep (pre.map (fun e => (e.1, some e.2)) ++ (b, some wb) :: post) st).state.gauges) ↔
        ∀ e ∈ pre, e.1 ∈ st.listMonitor ∨ unobtainable e.2 = false) := by
  induction pre with
  | nil =>
    intro st hb _ _
    have hl : listed st.listMonitor b = false := (listed_eq_false_iff _ _).mpr hb
    simp only [List.map_nil, List.nil_append, sweep_cons, monitorVisit_ok st b wb sqlDB hl hhealthy,
      List.not_mem_nil, false_imp_iff, implies_true, iff_true]
    intro g hg
    exact sweep_gauges_mono post (g, b) _
      (List.mem_append_right _ (List.mem_map.mpr ⟨g, hg, rfl⟩))
  | cons e rest ih =>
    intro st hb hfresh hkeys
    obtain ⟨k, w⟩ := e
    simp only [List.map_cons, List.cons_append, List.nodup_cons, List.mem_append,
      List.mem_singleton, not_or] at hkeys
    obtain ⟨⟨hkrest, hkb⟩, hnd⟩ := hkeys
    simp only [List.map_cons, List.cons_append, sweep_cons, List.forall_mem_cons]
    by_cases hk : k ∈ st.listMonitor
    · rw [monitorVisit_listed st k _ hk]
      simp only [ih st hb hfresh hnd, hk, true_or, true_and]
    · have hl : listed st.listMonitor k = false := (listed_eq_false_iff _ _).mpr hk
      cases hc : w.db.conn with
      | error err =>
        rw [monitorVisit_error st k w err hl hc]
        simp only [Sweep.state, hk, false_or, unobtainable, hc]
        constructor
        · intro h
          exact absurd (h "grom_max_open_connections" (by decide)) (hfresh _)
        · intro h
          exact absurd h.1 (by decide)
      | ok sq =>
        rw [monitorVisit_ok st k w sq hl hc]
        have hb2 : b ∉ st.listMonitor ++ [k] := by
          simp only [List.mem_append, List.mem_singleton, not_or]
          exact ⟨hb, fun h => hkb h.symm⟩
        have hfresh2 : ∀ g, (g, b) ∉ st.gauges ++ gaugeNames.map (fun g => (g, k)) := by
          intro g hg
          rcases List.mem_append.mp hg with hg | hg
          · exact hfresh g hg
          · obtain ⟨g1, _, heq⟩ := List.mem_map.mp hg
            simp only [Prod.mk.injEq] at heq
            exact hkb heq.2
        have ih2 := ih { listMonitor := st.listMonitor ++ [k],
                         gauges := st.gauges ++ gaugeNames.map (fun g => (g, k)),
                         printed := st.printed ++ [.started k] } hb2 hfresh2 hnd
        simp only [] at ih2 ⊢
        rw [ih2]
        simp only [unobtainable, hc, or_true, true_and]
        constructor
        · intro h e he
          rcases h e he with h1 | h1
          · rcases List.mem_append.mp h1 with h2 | h2
            · exact Or.inl h2
            · rw [List.mem_singleton] at h2
              exact absurd (List.mem_map.mpr ⟨e, he, h2⟩) hkrest
          · exact Or.inr h1
        · intro h e he
          rcases h e he with h1 | h1
          · exact Or.inl (List.mem_append_left _ h1)
          · exact Or.inr h1

/-- C8 (amended): in a sweep that reaches the healthy, not yet listed connection
`b` after the entries `pre`, the gauge callbacks of `b` are registered exactly
when every entry enumerated before `b` is already listed or has an obtainable
pool handle. An entry before `b` that is not yet listed and whose `DB()` fails
makes the range callback return `false`, which ends the sweep before `b`. -/
theorem sweep_registers_unless_failure_precedes (st : MonitorState)
    (pre : List (String × Wrapper)) (b : String) (wb : Wrapper) (sqlDB : SqlDB)
    (post : List (String × Option Wrapper))
    (hb : b ∉ st.listMonitor) (hfresh : ∀ g, (g, b) ∉ st.gauges)
    (hhealthy : wb.db.conn = .ok sqlDB)
    (hkeys : (pre.map Prod.fst ++ [b]).Nodup) :
    (∀ g ∈ gaugeNames, (g, b) ∈
        (sweep (pre.map (fun e => (e.1, some e.2)) ++ (b, some wb) :: post) st).state.gauges) ↔
      ∀ e ∈ pre, e.1 ∈ st.listMonitor ∨ unobtainable e.2 = false :=
  sweep_registers_iff b wb sqlDB post hhealthy pre st hb hfresh hkeys

/-- The sweep that meets the healthy `b` before the broken `a`: every gauge of
`b` is registered. -/
theorem sweep_registers_unless_failure_precedes_witness :
    ("grom_max_open_connections", "b") ∈
        (sweep [("b", some { addr := 1, db := sampleHandle 2 }),
                ("a", some { addr := 0, db := brokenHandle })] MonitorState.init).state.gauges ∧
      ("grom_wait_duration", "b") ∈
        (sweep [("b", some { addr := 1, db := sampleHandle 2 }),
                ("a", some { addr := 0, db := brokenHandle })] MonitorState.init).state.gauges :=
  ⟨(sweep_registers_unless_failure_precedes MonitorState.init [] "b"
      { addr := 1, db := sampleHandle 2 } { ping := none, database := .ok "app" }
      [("a", some { addr := 0, db := brokenHandle })]
      (by decide) (fun g => by simp [MonitorState.init]) rfl (by decide)).mpr
      (by intro e he; cases he) "grom_max_open_connections" (by decide),
   (sweep_registers_unless_failure_precedes MonitorState.init [] "b"
      { addr := 1, db := sampleHandle 2 } { ping := none, database := .ok "app" }
      [("a", some { addr := 0, db := brokenHandle })]
      (by decide) (fun g => by simp [MonitorState.init]) rfl (by decide)).mpr
      (by intro e he; cases he) "grom_wait_duration" (by decide)⟩

/-- C8 as stated fails: when the registry is enumerated with the broken
connection `a` before the healthy `b`, the sweep ends at `a`; after it only `a`
is listed and no gauge callback has been registered; `b` is registered by the
next sweep. -/
theorem failure_ends_the_sweep :
    (sweep brokenFirst MonitorState.init).state.listMonitor = ["a"] ∧
      (sweep brokenFirst MonitorState.init).state.gauges = [] ∧
      (sweeps [brokenFirst, brokenFirst] MonitorState.init).state.gauges =
        gaugeNames.map (fun g => (g, "b")) := by
  decide

/-! ## Interleavings of first calls -/

theorem Registry.Load_Store (m : Registry) (name : String) (v : Option Wrapper) :
    Registry.Load (Registry.Store m name v) name = some v := by
  induction m with
  | nil => simp [Registry.Store, Registry.Load]
  | cons entry rest ih =>
    obtain ⟨k, old⟩ := entry
    by_cases h : k = name
    · simp [Registry.Store, Registry.Load, h]
    · simp [Registry.Store, Registry.Load, h, ih]

theorem Machine.step_settled (env : Env) (config : Config) (name : String) (wr : Wrapper)
    (b : Nat) (sys : Machine) (i : Nat) (h : sys.settled name wr b) :
    (sys.step env config name i).settled name wr b ∧
      (sys.step env config name i).threads.length = sys.threads.length ∧
      (∀ j : Nat, sys.threads[j]? = some (Thread.done (Result.ok wr)) →
        (sys.step env config name i).threads[j]? = some (Thread.done (Result.ok wr))) ∧
      (i < sys.threads.length →
        (sys.step env config name i).threads[i]? = some (Thread.done (Result.ok wr))) := by
  obtain ⟨hb, hload, hth⟩ := h
  unfold Machine.step
  cases ht : sys.threads[i]? with
  | none =>
    refine ⟨⟨hb, hload, hth⟩, rfl, fun j hj => hj, fun hi => ?_⟩
    rw [List.getElem?_eq_none_iff] at ht
    omega
  | some t =>
    have hlt : i < sys.threads.length := by
      by_contra hge
      rw [List.getElem?_eq_none (by omega)] at ht
      cases ht
    have hstep : t.step env config name sys.world = (Thread.done (Result.ok wr), sys.world) := by
      rcases hth i t ht with rfl | rfl
      · simp only [Thread.step, hload]
      · simp only [Thread.step]
    simp only [hstep]
    refine ⟨⟨hb, hload, ?_⟩, by simp, ?_, ?_⟩
    · intro j u hu
      rw [List.getElem?_set] at hu
      by_cases hij : i = j
      · simp only [hij, if_true] at hu
        split at hu
        · cases hu; exact Or.inr rfl
        · cases hu
      · simp only [hij, if_false] at hu
        exact hth j u hu
    · intro j hj
      rw [List.getElem?_set]
      by_cases hij : i = j
      · simp only [hij, if_true]
        rw [if_pos (hij ▸ hlt)]
      · simp only [hij, if_false]
        exact hj
    · intro _
      rw [List.getElem?_set]
      simp only [if_true, if_pos hlt]

theorem Machine.run_settled (env : Env) (config : Config) (name : String) (wr : Wrapper)
    (b : Nat) (sched : List Nat) :
    ∀ sys : Machine, sys.settled name wr b →
      (Machine.run env config name sys sched).settled name wr b ∧
        (Machine.run env config name sys sched).threads.length = sys.threads.length ∧
        ∀ j : Nat, j < sys.threads.length →
          (sys.threads[j]? = some (Thread.done (Result.ok wr)) ∨ j ∈ sched) →
          (Machine.run env config name sys sched).threads[j]? = some (Thread.done (Result.ok wr)) := by
  induction sched with
  | nil =>
    intro sys h
    refine ⟨h, rfl, ?_⟩
    intro j _ hj
    rcases hj with hj | hj
    · exact hj
    · cases hj
  | cons i rest ih =>
    intro sys h
    obtain ⟨h1, h2, h3, h4⟩ := Machine.step_settled env config name wr b sys i h
    obtain ⟨r1, r2, r3⟩ := ih (sys.step env config name i) h1
    simp only [Machine.run]
    refine ⟨r1, by rw [r2, h2], ?_⟩
    intro j hj hdone
    apply r3 j (by rw [h2]; exact hj)
    rcases hdone with hdone | hmem
    · exact Or.inl (h3 j hdone)
    · rcases List.mem_cons.mp hmem with rfl | hmem
      · exact Or.inl (h4 hj)
      · exact Or.inr hmem

theorem Machine.first_call_settles (env : Env) (config : Config) (name : String) (w : World)
    (k : Nat) (g : GormDB) (i0 : Nat) (hmiss : w.instances.Load name = none) (hi0 : i0 < k)
    (hbuild : (newDB env config).1 = .ok g) :
    (Machine.run env config name (Machine.init k w) [i0, i0, i0]).settled name
        { addr := w.allocs, db := g } (w.builds + 1) ∧
      (Machine.run env config name (Machine.init k w) [i0, i0, i0]).threads.length = k ∧
      (Machine.run env config name (Machine.init k w) [i0, i0, i0]).threads[i0]? =
        some (Thread.done (Result.ok { addr := w.allocs, db := g })) := by
  rcases hn : newDB env config with ⟨r, c, effects⟩
  rw [hn] at hbuild
  simp only at hbuild
  subst hbuild
  have h0 : (List.replicate k Thread.start)[i0]? = some Thread.start :=
    List.getElem?_replicate_of_lt hi0
  have hrun : Machine.run env config name (Machine.init k w) [i0, i0, i0] =
      { threads := (List.replicate k Thread.start).set i0
          (.done (.ok { addr := w.allocs, db := g })),
        world := { w with
          instances := w.instances.Store name (some { addr := w.allocs, db := g }),
          effects := w.effects ++ effects, allocs := w.allocs + 1, builds := w.builds + 1 } } := by
    simp only [Machine.run, Machine.step, Machine.init, h0, Thread.step, hmiss, hn,
      List.getElem?_set_self (show i0 < (List.replicate k Thread.start).length by simpa using hi0),
      List.set_set, List.length_set]
  rw [hrun]
  refine ⟨⟨rfl, Registry.Load_Store _ _ _, ?_⟩, by simp, ?_⟩
  · intro i t ht
    simp only [List.getElem?_set, List.length_replicate] at ht
    by_cases hi : i0 = i
    · simp only [hi, if_true] at ht
      split at ht
      · cases ht; exact Or.inr rfl
      · cases ht
    · simp only [hi, if_false, List.getElem?_replicate] at ht
      split at ht
      · cases ht; exact Or.inl rfl
      · cases ht
  · simp only [List.getElem?_set, List.length_replicate, if_true, if_pos hi0]

theorem Machine.run_append (env : Env) (config : Config) (name : String) (s1 s2 : List Nat) :
    ∀ sys : Machine, Machine.run env config name sys (s1 ++ s2) =
      Machine.run env config name (Machine.run env config name sys s1) s2 := by
  induction s1 with
  | nil => intro sys; rfl
  | cons i rest ih => intro sys; exact ih _

theorem Machine.alone_is_NewWrapper (env : Env) (config : Config) (name : String) (w : World) :
    Machine.run env config name (Machine.init 1 w) [0, 0, 0] =
      { threads := [.done (NewWrapper env config [name] w).1],
        world := (NewWrapper env config [name] w).2.2 } := by
  simp only [Machine.run, Machine.step, Machine.init, NewWrapper, wrapperName, List.replicate,
    List.getElem?_cons_zero, Thread.step]
  rcases hl : w.instances.Load name with _ | _ | value
  · rcases hn : newDB env config with ⟨r, c, effects⟩
    cases r <;> simp [Thread.step, hn]
  · rcases hn : newDB env config with ⟨r, c, effects⟩
    cases r <;> simp [Thread.step, hn]
  · simp [Thread.step]

/-- C6 (amended): for a name absent from the registry, `k` goroutines calling
`NewWrapper` for it and a build that succeeds, under every interleaving in which
one call runs to its `Store` before any other call starts (in particular when
the calls run one after another), `newDB` is called exactly once, every call
that has been scheduled has returned the one wrapper that was stored, and no
call is in the middle of a build. -/
theorem one_build_when_first_call_stores_first (env : Env) (config : Config) (name : String)
    (w : World) (k : Nat) (g : GormDB) (i0 : Nat) (sched : List Nat)
    (hmiss : w.instances.Load name = none) (hi0 : i0 < k)
    (hbuild : (newDB env config).1 = .ok g) :
    (Machine.run env config name (Machine.init k w) (i0 :: i0 :: i0 :: sched)).world.builds =
        w.builds + 1 ∧
      (∀ i : Nat, i < k → (i = i0 ∨ i ∈ sched) →
        (Machine.run env config name (Machine.init k w) (i0 :: i0 :: i0 :: sched)).threads[i]? =
          some (Thread.done (Result.ok { addr := w.allocs, db := g }))) ∧
      (∀ (i : Nat) (t : Thread),
        (Machine.run env config name (Machine.init k w) (i0 :: i0 :: i0 :: sched)).threads[i]? =
          some t →
        t = Thread.start ∨ t = Thread.done (Result.ok { addr := w.allocs, db := g })) := by
  obtain ⟨h1, h2, h3⟩ := Machine.first_call_settles env config name w k g i0 hmiss hi0 hbuild
  obtain ⟨r1, _, r3⟩ := Machine.run_settled env config name { addr := w.allocs, db := g }
    (w.builds + 1) sched _ h1
  have hrun : Machine.run env config name (Machine.init k w) (i0 :: i0 :: i0 :: sched) =
      Machine.run env config name (Machine.run env config name (Machine.init k w) [i0, i0, i0])
        sched :=
    Machine.run_append env config name [i0, i0, i0] sched _
  rw [hrun]
  refine ⟨r1.1, ?_, r1.2.2⟩
  intro i hi hsel
  apply r3 i (by rw [h2]; exact hi)
  rcases hsel with rfl | hmem
  · exact Or.inl h3
  · exact Or.inr hmem

/-- Three calls in `sampleEnv`, the call of goroutine 1 first and the two others
interleaved after it: one build, and everyone returns the wrapper at address 0. -/
theorem one_build_when_first_call_stores_first_witness :
    (Machine.run sampleEnv (sampleConfig true true true) "y" (Machine.init 3 emptyWorld)
        [1, 1, 1, 0, 2, 2, 0]).world.builds = 1 ∧
      (Machine.run sampleEnv (sampleConfig true true true) "y" (Machine.init 3 emptyWorld)
        [1, 1, 1, 0, 2, 2, 0]).threads.map Thread.returnedAddr = [some 0, some 0, some 0] :=
  ⟨(one_build_when_first_call_stores_first sampleEnv (sampleConfig true true true) "y"
      emptyWorld 3 _ 1 [0, 2, 2, 0] rfl (by decide) rfl).1,
   rfl⟩

/-- C6 as stated fails: two goroutines call `NewWrapper` for the absent name `y`
and both execute `Load` before either executes `Store`. Both miss, `newDB` is
called twice, and the callers return two different wrappers (the allocations 0
and 1); the registry keeps the second. -/
theorem interleaved_first_calls_build_twice :
    (Machine.run sampleEnv (sampleConfig true true true) "y" (Machine.init 2 emptyWorld)
        [0, 1, 0, 1, 0, 1]).world.builds = 2 ∧
      (Machine.run sampleEnv (sampleConfig true true true) "y" (Machine.init 2 emptyWorld)
        [0, 1, 0, 1, 0, 1]).threads.map Thread.returnedAddr = [some 0, some 1] ∧
      ((Machine.run sampleEnv (sampleConfig true true true) "y" (Machine.init 2 emptyWorld)
        [0, 1, 0, 1, 0, 1]).world.instances.map (fun e => (e.1, e.2.map Wrapper.addr))) =
        [("y", some 1)] := by
  decide

/-! ## Unsupported kinds and failed opens -/

theorem openDriver_unsupported (env : Env) (config : Config)
    (h1 : config.Type_ ≠ TypeSQLite) (h2 : config.Type_ ≠ TypeMySQL)
    (h3 : config.Type_ ≠ TypePostgreSQL) :
    openDriver env config = (.ok none, []) := by
  simp only [openDriver, h1, h2, h3, if_false]

theorem openDriver_failed (env : Env) (config : Config) (dialect : String) (e : GoError)
    (hk : config.Type_ = TypeSQLite ∧ dialect = "sqlite" ∨
      config.Type_ = TypeMySQL ∧ dialect = "mysql" ∨
      config.Type_ = TypePostgreSQL ∧ dialect = "postgres")
    (he : env.gormOpen dialect config.DSN = .error e) :
    openDriver env config = (.error e, [.gormOpen dialect config.DSN]) := by
  rcases hk with ⟨hk, rfl⟩ | ⟨hk, rfl⟩ | ⟨hk, rfl⟩
  · simp only [openDriver, hk, if_true, he]
  · have h1 : TypeMySQL ≠ TypeSQLite := by decide
    simp only [openDriver, hk, h1, if_false, if_true, he]
  · have h1 : TypePostgreSQL ≠ TypeSQLite := by decide
    have h2 : TypePostgreSQL ≠ TypeMySQL := by decide
    simp only [openDriver, hk, h1, h2, if_false, if_true, he]

/-- C11 (amended): for a configuration with a non-nil `Logger`, when `Type` is
none of the three kind constants `newDB` returns the error `gormDB is nil`
having made no call but `NewZapLog` (no driver is opened, no pool limit is set)
and leaves the configuration as it was (neither `interceptors` nor `dbName` is
assigned); when `Type` is one of the constants and the open of its driver fails,
`newDB` returns the open error, again with the configuration untouched. -/
theorem newDB_unsupported_kind_or_failed_open (env : Env) (config : Config) (l : LogLogger)
    (hl : config.Logger = some l) :
    (config.Type_ ≠ TypeSQLite → config.Type_ ≠ TypeMySQL → config.Type_ ≠ TypePostgreSQL →
      newDB env config =
        (.error (.plain "gormDB is nil"), config, [.newZapLog l.Logger])) ∧
    (∀ (dialect : String) (e : GoError),
      (config.Type_ = TypeSQLite ∧ dialect = "sqlite" ∨
        config.Type_ = TypeMySQL ∧ dialect = "mysql" ∨
        config.Type_ = TypePostgreSQL ∧ dialect = "postgres") →
      env.gormOpen dialect config.DSN = .error e →
      newDB env config =
        (.error e, config, [.newZapLog l.Logger, .gormOpen dialect config.DSN])) := by
  constructor
  · intro h1 h2 h3
    unfold newDB
    simp only [hl, openDriver_unsupported env config h1 h2 h3, List.append_nil]
  · intro dialect e hk he
    unfold newDB
    simp only [hl, openDriver_failed env config dialect e hk he, List.singleton_append]

/-- The unsupported kind `oracle` in an environment whose opens would succeed,
and the kind `mysql` in an environment whose opens fail. -/
theorem newDB_unsupported_kind_or_failed_open_witness :
    newDB sampleEnv unknownKindConfig =
        (.error (.plain "gormDB is nil"), unknownKindConfig,
          [.newZapLog (some { id := 0 })]) ∧
      newDB failingEnv (sampleConfig true true true) =
        (.error (.plain "connection refused"), sampleConfig true true true,
          [.newZapLog (some { id := 0 }), .gormOpen "mysql" "dsn"]) :=
  ⟨(newDB_unsupported_kind_or_failed_open sampleEnv unknownKindConfig
      { Logger := some { id := 0 } } rfl).1 (by decide) (by decide) (by decide),
   (newDB_unsupported_kind_or_failed_open failingEnv (sampleConfig true true true)
      { Logger := some { id := 0 } } rfl).2 "mysql" (.plain "connection refused")
      (Or.inr (Or.inl ⟨rfl, rfl⟩)) rfl⟩

/-- C11 as stated fails: `brokenConfig` has a `Type` that is none of the three
constants and a nil `Logger`; `newDB` does not return an error for it, it panics
on `config.Logger.Logger` (line 86) before the `switch` is reached. -/
theorem newDB_panics_without_logger :
    brokenConfig.Type_ ≠ TypeSQLite ∧ brokenConfig.Type_ ≠ TypeMySQL ∧
      brokenConfig.Type_ ≠ TypePostgreSQL ∧
      newDB sampleEnv brokenConfig = (.panic nilDereference, brokenConfig, []) :=
  ⟨by decide, by decide, by decide, rfl⟩

/-! ## Default injection -/

theorem setField_fst (P : Parsers) (kind : Kind) (canSet : Bool) (field : Value)
    (defaultVal : String) : (setField P kind canSet field defaultVal).1 = none := by
  unfold setField
  split
  · rfl
  · split
    · rfl
    · split
      · cases kind <;> try rfl
        simp only
        split <;> rfl
      · rfl

theorem setField_nonzero (P : Parsers) (kind : Kind) (canSet : Bool) (field : Value)
    (defaultVal : String) (h : isInitialValue field = false) :
    setField P kind canSet field defaultVal = (none, none) := by
  unfold setField
  split
  · rfl
  · split
    · rfl
    · simp [h]

theorem setFields_cons_skip {σ : Type} (P : Parsers) (f : StructField σ)
    (rest : List (StructField σ)) (v : σ) (h : f.tag = "-" ∨ f.tag = "") :
    setFields P (f :: rest) v = setFields P rest v := by
  have h1 : ¬ (f.tag ≠ "-" ∧ f.tag ≠ "") := by
    intro h2
    rcases h with h | h
    · exact h2.1 h
    · exact h2.2 h
  simp only [setFields, h1, if_false]

theorem setFields_cons_nonzero {σ : Type} (P : Parsers) (f : StructField σ)
    (rest : List (StructField σ)) (v : σ) (h : isInitialValue (f.get v) = false) :
    setFields P (f :: rest) v = setFields P rest v := by
  simp only [setFields, setField_nonzero P f.kind f.exported (f.get v) f.tag h]
  split <;> rfl

theorem setFields_fst {σ : Type} (P : Parsers) (t : List (StructField σ)) :
    ∀ v : σ, (setFields P t v).1 = none := by
  induction t with
  | nil => intro v; rfl
  | cons f rest ih =>
    intro v
    simp only [setFields]
    split
    · have h1 := setField_fst P f.kind f.exported (f.get v) f.tag
      split
      · rename_i heq
        rw [heq] at h1
        cases h1
      · exact ih _
      · exact ih _
    · exact ih _

theorem setFields_untouched {σ α : Type} (P : Parsers) (proj : σ → α)
    (t : List (StructField σ))
    (h : ∀ f ∈ t, (f.tag = "-" ∨ f.tag = "") ∨ ∀ val x, proj (f.set val x) = proj x) :
    ∀ v : σ, proj (setFields P t v).2 = proj v := by
  induction t with
  | nil => intro v; rfl
  | cons f rest ih =>
    intro v
    have ih1 := ih (fun g hg => h g (List.mem_cons_of_mem _ hg))
    rcases h f (List.mem_cons_self _ _) with hskip | hset
    · rw [setFields_cons_skip P f rest v hskip]
      exact ih1 v
    · simp only [setFields]
      split
      · split
        · rfl
        · rename_i value _
          rw [ih1 (f.set value v), hset value v]
        · exact ih1 v
      · exact ih1 v

theorem setFields_keeps {σ α : Type} (P : Parsers) (proj : σ → α) (v : σ)
    (t : List (StructField σ))
    (h : ∀ f ∈ t, (f.tag = "-" ∨ f.tag = "") ∨ (∀ val x, proj (f.set val x) = proj x) ∨
      ((∀ x y, proj x = proj y → f.get x = f.get y) ∧ isInitialValue (f.get v) = false)) :
    ∀ w : σ, proj w = proj v → proj (setFields P t w).2 = proj v := by
  induction t with
  | nil => intro w hw; exact hw
  | cons f rest ih =>
    intro w hw
    have ih1 := ih (fun g hg => h g (List.mem_cons_of_mem _ hg))
    rcases h f (List.mem_cons_self _ _) with hskip | hset | ⟨hget, hnz⟩
    · rw [setFields_cons_skip P f rest w hskip]
      exact ih1 w hw
    · simp only [setFields]
      split
      · split
        · exact hw
        · rename_i value _
          exact ih1 (f.set value w) (by rw [hset value w, hw])
        · exact ih1 w hw
      · exact ih1 w hw
    · rw [setFields_cons_nonzero P f rest w (by rw [hget w v hw]; exact hnz)]
      exact ih1 w hw

theorem setFields_zeroConfig (P : Parsers)
    (h10 : P.ParseInt "10" IntSize = some 10) (h100 : P.ParseInt "100" IntSize = some 100)
    (h300 : P.ParseInt "300" IntSize = some 300) (h1000 : P.ParseInt "1000" IntSize = some 1000)
    (hfalse : P.ParseBool "false" = some false) (htrue : P.ParseBool "true" = some true) :
    setFields P Config.fields zeroConfig =
      (none,
        { Logger := none, Type_ := "mysql", DSN := "", MaxIdleConn := 10, MaxOpenConn := 100,
          ConnMaxLifetime := 300, ConnMaxIdleTime := 300, SlowLogThreshold := 1000,
          EnableDebug := false, EnableMetric := false, EnableTrace := true, dbName := "",
          interceptors := [] }) := by
  have w10 : wrapInt IntSize 10 = 10 := by decide
  have w100 : wrapInt IntSize 100 = 100 := by decide
  have w300 : wrapInt IntSize 300 = 300 := by decide
  have w1000 : wrapInt IntSize 1000 = 1000 := by decide
  simp [setFields, Config.fields, zeroConfig, setField, initializeField, isInitialValue,
    setString, setInt, setBool, h10, h100, h300, h1000, hfalse, htrue, w10, w100, w300, w1000]

theorem setFields_Config_keeps (P : Parsers) (c : Config) :
    (setFields P Config.fields c).2.Logger = c.Logger ∧
      (setFields P Config.fields c).2.DSN = c.DSN ∧
      (setFields P Config.fields c).2.dbName = c.dbName ∧
      (setFields P Config.fields c).2.interceptors = c.interceptors ∧
      (c.Type_ ≠ "" → (setFields P Config.fields c).2.Type_ = c.Type_) ∧
      (c.MaxIdleConn ≠ 0 → (setFields P Config.fields c).2.MaxIdleConn = c.MaxIdleConn) ∧
      (c.MaxOpenConn ≠ 0 → (setFields P Config.fields c).2.MaxOpenConn = c.MaxOpenConn) ∧
      (c.ConnMaxLifetime ≠ 0 →
        (setFields P Config.fields c).2.ConnMaxLifetime = c.ConnMaxLifetime) ∧
      (c.ConnMaxIdleTime ≠ 0 →
        (setFields P Config.fields c).2.ConnMaxIdleTime = c.ConnMaxIdleTime) ∧
      (c.SlowLogThreshold ≠ 0 →
        (setFields P Config.fields c).2.SlowLogThreshold = c.SlowLogThreshold) ∧
      (c.EnableDebug = true → (setFields P Config.fields c).2.EnableDebug = true) ∧
      (c.EnableMetric = true → (setFields P Config.fields c).2.EnableMetric = true) ∧
      (c.EnableTrace = true → (setFields P Config.fields c).2.EnableTrace = true) := by
  have hLogger : (setFields P Config.fields c).2.Logger = c.Logger :=
    setFields_keeps P Config.Logger c Config.fields
    (by
      simp only [Config.fields, List.forall_mem_cons, List.not_mem_nil, false_imp_iff,
        implies_true, and_true, true_and, or_true, true_or]
      split_ands <;> (right; left; intro val x; cases val <;> rfl)) c rfl
  have hDSN : (setFields P Config.fields c).2.DSN = c.DSN :=
    setFields_keeps P Config.DSN c Config.fields
    (by
      simp only [Config.fields, List.forall_mem_cons, List.not_mem_nil, false_imp_iff,
        implies_true, and_true, true_and, or_true, true_or]
      split_ands <;> (right; left; intro val x; cases val <;> rfl)) c rfl
  have hdbName : (setFields P Config.fields c).2.dbName = c.dbName :=
    setFields_keeps P Config.dbName c Config.fields
    (by
      simp only [Config.fields, List.forall_mem_cons, List.not_mem_nil, false_imp_iff,
        implies_true, and_true, true_and, or_true, true_or]
      split_ands <;> (right; left; intro val x; cases val <;> rfl)) c rfl
  have hinterceptors : (setFields P Config.fields c).2.interceptors = c.interceptors :=
    setFields_keeps P Config.interceptors c Config.fields
    (by
      simp only [Config.fields, List.forall_mem_cons, List.not_mem_nil, false_imp_iff,
        implies_true, and_true, true_and, or_true, true_or]
      split_ands <;> (right; left; intro val x; cases val <;> rfl)) c rfl
  have hType_ : c.Type_ ≠ "" → (setFields P Config.fields c).2.Type_ = c.Type_ := fun hnz =>
    setFields_keeps P Config.Type_ c Config.fields
    (by
      simp only [Config.fields, List.forall_mem_cons, List.not_mem_nil, false_imp_iff,
        implies_true, and_true, true_and, or_true, true_or]
      split_ands <;> first
        | (right; left; intro val x; cases val <;> rfl)
        | (right; right; refine ⟨fun x y hxy => ?_, ?_⟩
           · rw [hxy]
           · simp [isInitialValue, hnz])) c rfl
  have hMaxIdleConn : c.MaxIdleConn ≠ 0 → (setFields P Config.fields c).2.MaxIdleConn = c.MaxIdleConn := fun hnz =>
    setFields_keeps P Config.MaxIdleConn c Config.fields
    (by
      simp only [Config.fields, List.forall_mem_cons, List.not_mem_nil, false_imp_iff,
        implies_true, and_true, true_and, or_true, true_or]
      split_ands <;> first
        | (right; left; intro val x; cases val <;> rfl)
        | (right; right; refine ⟨fun x y hxy => ?_, ?_⟩
           · rw [hxy]
           · simp [isInitialValue, hnz])) c rfl
  have hMaxOpenConn : c.MaxOpenConn ≠ 0 → (setFields P Config.fields c).2.MaxOpenConn = c.MaxOpenConn := fun hnz =>
    setFields_keeps P Config.MaxOpenConn c Config.fields
    (by
      simp only [Config.fields, List.forall_mem_cons, List.not_mem_nil, false_imp_iff,
        implies_true, and_true, true_and, or_true, true_or]
      split_ands <;> first
        | (right; left; intro val x; cases val <;> rfl)
        | (right; right; refine ⟨fun x y hxy => ?_, ?_⟩
           · rw [hxy]
           · simp [isInitialValue, hnz])) c rfl
  have hConnMaxLifetime : c.ConnMaxLifetime ≠ 0 → (setFields P Config.fields c).2.ConnMaxLifetime = c.ConnMaxLifetime := fun hnz =>
    setFields_keeps P Config.ConnMaxLifetime c Config.fields
    (by
      simp only [Config.fields, List.forall_mem_cons, List.not_mem_nil, false_imp_iff,
        implies_true, and_true, true_and, or_true, true_or]
      split_ands <;> first
        | (right; left; intro val x; cases val <;> rfl)
        | (right; right; refine ⟨fun x y hxy => ?_, ?_⟩
           · rw [hxy]
           · simp [isInitialValue, hnz])) c rfl
  have hConnMaxIdleTime : c.ConnMaxIdleTime ≠ 0 → (setFields P Config.fields c).2.ConnMaxIdleTime = c.ConnMaxIdleTime := fun hnz =>
    setFields_keeps P Config.ConnMaxIdleTime c Config.fields
    (by
      simp only [Config.fields, List.forall_mem_cons, List.not_mem_nil, false_imp_iff,
        implies_true, and_true, true_and, or_true, true_or]
      split_ands <;> first
        | (right; left; intro val x; cases val <;> rfl)
        | (right; right; refine ⟨fun x y hxy => ?_, ?_⟩
           · rw [hxy]
           · simp [isInitialValue, hnz])) c rfl
  have hSlowLogThreshold : c.SlowLogThreshold ≠ 0 → (setFields P Config.fields c).2.SlowLogThreshold = c.SlowLogThreshold := fun hnz =>
    setFields_keeps P Config.SlowLogThreshold c Config.fields
    (by
      simp only [Config.fields, List.forall_mem_cons, List.not_mem_nil, false_imp_iff,
        implies_true, and_true, true_and, or_true, true_or]
      split_ands <;> first
        | (right; left; intro val x; cases val <;> rfl)
        | (right; right; refine ⟨fun x y hxy => ?_, ?_⟩
           · rw [hxy]
           · simp [isInitialValue, hnz])) c rfl
  have hEnableDebug : c.EnableDebug = true → (setFields P Config.fields c).2.EnableDebug = c.EnableDebug := fun hnz =>
    setFields_keeps P Config.EnableDebug c Config.fields
    (by
      simp only [Config.fields, List.forall_mem_cons, List.not_mem_nil, false_imp_iff,
        implies_true, and_true, true_and, or_true, true_or]
      split_ands <;> first
        | (right; left; intro val x; cases val <;> rfl)
        | (right; right; refine ⟨fun x y hxy => ?_, ?_⟩
           · rw [hxy]
           · simp [isInitialValue, hnz])) c rfl
  have hEnableMetric : c.EnableMetric = true → (setFields P Config.fields c).2.EnableMetric = c.EnableMetric := fun hnz =>
    setFields_keeps P Config.EnableMetric c Config.fields
    (by
      simp only [Config.fields, List.forall_mem_cons, List.not_mem_nil, false_imp_iff,
        implies_true, and_true, true_and, or_true, true_or]
      split_ands <;> first
        | (right; left; intro val x; cases val <;> rfl)
        | (right; right; refine ⟨fun x y hxy => ?_, ?_⟩
           · rw [hxy]
           · simp [isInitialValue, hnz])) c rfl
  have hEnableTrace : c.EnableTrace = true → (setFields P Config.fields c).2.EnableTrace = c.EnableTrace := fun hnz =>
    setFields_keeps P Config.EnableTrace c Config.fields
    (by
      simp only [Config.fields, List.forall_mem_cons, List.not_mem_nil, false_imp_iff,
        implies_true, and_true, true_and, or_true, true_or]
      split_ands <;> first
        | (right; left; intro val x; cases val <;> rfl)
        | (right; right; refine ⟨fun x y hxy => ?_, ?_⟩
           · rw [hxy]
           · simp [isInitialValue, hnz])) c rfl
  exact ⟨hLogger, hDSN, hdbName, hinterceptors, hType_,
    hMaxIdleConn, hMaxOpenConn, hConnMaxLifetime, hConnMaxIdleTime, hSlowLogThreshold,
    fun h => (hEnableDebug h).trans h, fun h => (hEnableMetric h).trans h,
    fun h => (hEnableTrace h).trans h⟩

theorem setDefault_toStruct {σ : Type} (P : Parsers) (t : List (StructField σ)) (v : σ) :
    setDefault P t (.toStruct v) = .ok (.toStruct (setFields P t v).2) := by
  have h := setFields_fst P t v
  rcases hs : setFields P t v with ⟨err, v1⟩
  rw [hs] at h
  simp only at h
  subst h
  simp only [setDefault, hs]

/-- C12: for parsers that read the decimal numerals `10`, `100`, `300`, `1000`
and the literals `false`, `true` as `strconv` does, `setDefault` applied to a
pointer to the zero `Config` returns no error and leaves `Type` `mysql`,
`MaxIdleConn` 10, `MaxOpenConn` 100, `ConnMaxLifetime` 300, `ConnMaxIdleTime`
300, `SlowLogThreshold` 1000, `EnableDebug` false, `EnableMetric` false,
`EnableTrace` true, `DSN` empty and `Logger` nil. For every starting `Config`
and any parsers, `setDefault` returns no error, never changes `Logger`, `DSN`,
`dbName` or `interceptors`, and leaves every tagged field that holds a non-zero
value as it is. -/
theorem setDefault_fills_zero_fields_only (P : Parsers) :
    (P.ParseInt "10" IntSize = some 10 → P.ParseInt "100" IntSize = some 100 →
      P.ParseInt "300" IntSize = some 300 → P.ParseInt "1000" IntSize = some 1000 →
      P.ParseBool "false" = some false → P.ParseBool "true" = some true →
      setDefault P Config.fields (.toStruct zeroConfig) =
        .ok (.toStruct
          { Logger := none, Type_ := "mysql", DSN := "", MaxIdleConn := 10, MaxOpenConn := 100,
            ConnMaxLifetime := 300, ConnMaxIdleTime := 300, SlowLogThreshold := 1000,
            EnableDebug := false, EnableMetric := false, EnableTrace := true, dbName := "",
            interceptors := [] })) ∧
    (∀ c : Config, ∃ c1 : Config,
      setDefault P Config.fields (.toStruct c) = .ok (.toStruct c1) ∧
      c1.Logger = c.Logger ∧ c1.DSN = c.DSN ∧ c1.dbName = c.dbName ∧
      c1.interceptors = c.interceptors ∧
      (c.Type_ ≠ "" → c1.Type_ = c.Type_) ∧
      (c.MaxIdleConn ≠ 0 → c1.MaxIdleConn = c.MaxIdleConn) ∧
      (c.MaxOpenConn ≠ 0 → c1.MaxOpenConn = c.MaxOpenConn) ∧
      (c.ConnMaxLifetime ≠ 0 → c1.ConnMaxLifetime = c.ConnMaxLifetime) ∧
      (c.ConnMaxIdleTime ≠ 0 → c1.ConnMaxIdleTime = c.ConnMaxIdleTime) ∧
      (c.SlowLogThreshold ≠ 0 → c1.SlowLogThreshold = c.SlowLogThreshold) ∧
      (c.EnableDebug = true → c1.EnableDebug = true) ∧
      (c.EnableMetric = true → c1.EnableMetric = true) ∧
      (c.EnableTrace = true → c1.EnableTrace = true)) := by
  constructor
  · intro h10 h100 h300 h1000 hfalse htrue
    rw [setDefault_toStruct, setFields_zeroConfig P h10 h100 h300 h1000 hfalse htrue]
  · intro c
    exact ⟨(setFields P Config.fields c).2, setDefault_toStruct P Config.fields c,
      setFields_Config_keeps P c⟩

/-- The defaults of the zero `Config` with `decimalParsers`, and a `Config` that
already holds the kind `postgres`, 5 open connections and the debug flag. -/
theorem setDefault_fills_zero_fields_only_witness :
    setDefault decimalParsers Config.fields (.toStruct zeroConfig) =
        .ok (.toStruct
          { Logger := none, Type_ := "mysql", DSN := "", MaxIdleConn := 10, MaxOpenConn := 100,
            ConnMaxLifetime := 300, ConnMaxIdleTime := 300, SlowLogThreshold := 1000,
            EnableDebug := false, EnableMetric := false, EnableTrace := true, dbName := "",
            interceptors := [] }) ∧
      ∃ c1 : Config,
        setDefault decimalParsers Config.fields
            (.toStruct { zeroConfig with Type_ := "postgres", MaxOpenConn := 5,
                                         EnableDebug := true }) = .ok (.toStruct c1) ∧
          c1.Type_ = "postgres" ∧ c1.MaxOpenConn = 5 ∧ c1.EnableDebug = true :=
  ⟨(setDefault_fills_zero_fields_only decimalParsers).1 (by decide) (by decide) (by decide)
      (by decide) (by decide) (by decide),
   match (setDefault_fills_zero_fields_only decimalParsers).2
      { zeroConfig with Type_ := "postgres", MaxOpenConn := 5, EnableDebug := true } with
   | ⟨c1, h, _, _, _, _, hType, _, hOpen, _, _, _, hDebug, _, _⟩ =>
     ⟨c1, h, hType (by decide), hOpen (by decide), hDebug rfl⟩⟩

end Db
